import Mathlib

/-!
Verification of the drone simulator flight engine and session protocol.

This file embeds, in Lean, the state-transition core of the drone
simulator: the input validators (`validators.py`), the environment model
(`environment.py`), the flight-state transition `update_telemetry`
(`drone.py`) and the per-command server handler `handle_drone_command`
(`server.py`).  Numeric fields are modelled with `ℚ` (the Python code
computes in IEEE double precision; every constant appearing in the code is
a decimal literal, so all claim-relevant computations are exact in `ℚ`).

Randomness and the one transcendental function are modelled as explicit
oracle inputs:

* every `random.uniform(a, b)` draw, the `random.random() < 0.3` dust-storm
  event, and the wind heading `(cos θ, sin θ)` become fields of
  `StepOracle`, constrained by `oracleWf` to the exact ranges the code
  draws them from;
* the battery altitude factor `0.6 + (1.8 - 0.6) * math.exp(-0.03 * y)`
  is transcendental, so it is carried as the oracle field `altFactor`,
  constrained by `oracleWf` to the range this expression actually takes:
  strictly above `0.6` always (since `exp > 0`), and at most `1.8` when
  `y ≥ 0` (since `exp` of a nonpositive argument is at most `1`).  The
  theorem `altitude_factor_range` justifies these bounds against the real
  exponential.

The two square-root comparisons of the code are embedded by squaring:
`math.sqrt s > c` with `s ≥ 0, c ≥ 0` is equivalent to `s > c^2`, and
`math.sqrt (mx^2 + 0^2)` is `|mx|`.  Each such spot is commented where it
occurs.
-/

namespace DroneSim

/-- Sensor status enum; the code stores the strings "GREEN"/"YELLOW"/"RED". -/
inductive SensorStatus
| GREEN
| YELLOW
| RED
deriving DecidableEq, Repr

/-- A Python value as it can occur in a command dict: the claims only need
ints, floats and strings (`validators.py` branches on `isinstance(·, int)`
and `isinstance(·, str)`).  Python `bool` (a subtype of `int`) is omitted:
no claim depends on it. -/
inductive PyVal
| pyInt (n : ℤ)
| pyFloat (q : ℚ)
| pyStr (s : String)
deriving DecidableEq, Repr

/-- `type(v).__name__` for the modelled values. -/
def typeName : PyVal → String
| PyVal.pyInt _ => "int"
| PyVal.pyFloat _ => "float"
| PyVal.pyStr _ => "str"

/-- A command dict, `{"speed": ..., "altitude": ..., "movement": ...}`.
Keys are looked up by first match. -/
abbrev CmdDict := List (String × PyVal)

def keySpeed : String := "speed"

def keyAltitude : String := "altitude"

def keyMovement : String := "movement"

def fwdStr : String := "fwd"

def revStr : String := "rev"

/-- `d.get(k)` returning `None` (`none`) when the key is absent. -/
def lookupKey (d : CmdDict) (k : String) : Option PyVal :=
  (d.find? (fun p => p.1 == k)).map Prod.snd

/-- `d.get(k, default)`. -/
def getValD (d : CmdDict) (k : String) (dflt : PyVal) : PyVal :=
  (lookupKey d k).getD dflt

/-- `d.get(k, 0)` used in contexts where the value is an int (validation
guarantees this before any numeric use; the `0` default mirrors the
`.get(k, 0)` of the source). -/
def getIntD (d : CmdDict) (k : String) (dflt : ℤ) : ℤ :=
  match lookupKey d k with
  | some (PyVal.pyInt n) => n
  | _ => dflt

/-! ## validators.py -/

/-- `validate_speed` (validators.py:17-23): `None` models Python `True`
(valid), `some msg` the returned error string. -/
def validate_speed (v : PyVal) : Option String :=
  match v with
  | PyVal.pyInt n =>
    if ¬ (0 ≤ n ∧ n ≤ 5) then some ("'speed' must be between 0 and 5, got " ++ toString n)
    else none
  | _ => some ("'speed' must be an integer, got " ++ typeName v)

/-- `validate_altitude` (validators.py:25-29). -/
def validate_altitude (v : PyVal) : Option String :=
  match v with
  | PyVal.pyInt _ => none
  | _ => some ("'altitude' must be an integer, got " ++ typeName v)

/-- `validate_movement` (validators.py:31-37). -/
def validate_movement (v : PyVal) : Option String :=
  match v with
  | PyVal.pyStr s =>
    if ¬ (s = fwdStr ∨ s = revStr) then
      some ("'movement' must be one of ['fwd', 'rev'], got '" ++ s ++ "'")
    else none
  | _ => some ("'movement' must be a string")

/-- `validate_required_keys` (validators.py:10-15): first missing key wins. -/
def validate_required_keys (d : CmdDict) (keys : List String) : Option String :=
  keys.findSome? (fun k =>
    if lookupKey d k = none then some ("Missing required key: " ++ k) else none)

/-- `validate_drone_input` (validators.py:39-65).  The
`validate_dict_input` step is vacuous here (the argument is a dict by
type).  After the required-keys check the direct `input_data[k]` accesses
cannot miss, so the `.getD` defaults below are never consulted. -/
def validate_drone_input (d : CmdDict) : Option String :=
  match validate_required_keys d [keySpeed, keyAltitude, keyMovement] with
  | some e => some e
  | none =>
    match validate_speed (getValD d keySpeed (PyVal.pyInt 0)) with
    | some e => some e
    | none =>
      match validate_altitude (getValD d keyAltitude (PyVal.pyInt 0)) with
      | some e => some e
      | none => validate_movement (getValD d keyMovement (PyVal.pyInt 0))

/-! ## Telemetry (telemetry.py, data model of drone.py) -/

structure Telemetry where
  x_position : ℚ
  y_position : ℚ
  battery : ℚ
  gyroscope : ℚ × ℚ × ℚ
  wind_speed : ℚ
  dust_level : ℚ
  sensor_status : SensorStatus
deriving DecidableEq, Repr

/-- The default snapshot (telemetry.py:15-23, drone.py:143-151). -/
def initial_telemetry : Telemetry :=
  { x_position := 0
    y_position := 0
    battery := 100
    gyroscope := (0, 0, 0)
    wind_speed := 0
    dust_level := 0
    sensor_status := SensorStatus.GREEN }

/-! ## environment.py -/

/-- One step's worth of random draws, plus the transcendental battery
altitude factor (see the file comment).  `windDirCos`/`windDirSin` are
`(cos θ, sin θ)` for the uniformly drawn wind heading `θ`. -/
structure StepOracle where
  altFactor : ℚ
  windChange : ℚ
  dustChange : ℚ
  stormHappens : Bool
  stormSeverity : ℚ
  windDirCos : ℚ
  windDirSin : ℚ
  baseGyroX : ℚ
  baseGyroY : ℚ
  baseGyroZ : ℚ
  initGyroX : ℚ
  initGyroY : ℚ
  initGyroZ : ℚ
deriving DecidableEq, Repr

def MAX_WIND_TILT_DEGREES : ℚ := 40

def CRITICAL_TILT_DEGREES : ℚ := 45

/-- `DEGREES_TO_GYRO = 1.0 / 90.0` (environment.py:20). -/
def DEGREES_TO_GYRO : ℚ := 1 / 90

/-- `altitude_stability_factor = min(1.0, altitude / 50.0)` (environment.py:42). -/
def altitude_stability_factor (altitude : ℚ) : ℚ := min 1 (altitude / 50)

/-- `base_instability = 0.1 * (1 - altitude_stability_factor)` (environment.py:43). -/
def base_instability (altitude : ℚ) : ℚ := 0.1 * (1 - altitude_stability_factor altitude)

/-- `wind_effect_gyro` (environment.py:56-59). -/
def wind_effect_gyro (wind_speed : ℚ) : ℚ :=
  wind_speed / 100 * MAX_WIND_TILT_DEGREES * DEGREES_TO_GYRO

/-- `movement_effect_magnitude = (drone_speed / 5.0) * 20.0` (environment.py:68). -/
def movement_effect_magnitude (u : CmdDict) : ℚ :=
  ((getIntD u keySpeed 0 : ℤ) : ℚ) / 5 * 20

/-- `movement_effect_x` (environment.py:71-79): the dict comparison
`movement_direction == "fwd"` is Python `==` on the raw value, with
default `"fwd"` from `.get("movement", "fwd")`. -/
def movement_effect_x (u : CmdDict) : ℚ :=
  let movement_direction := getValD u keyMovement (PyVal.pyStr fwdStr)
  if movement_direction = PyVal.pyStr fwdStr then
    movement_effect_magnitude u * DEGREES_TO_GYRO
  else if movement_direction = PyVal.pyStr revStr then
    -(movement_effect_magnitude u * DEGREES_TO_GYRO)
  else 0

/-- `movement_effect_y` is `0` in every branch (environment.py:73-79). -/
def movement_effect_y (_u : CmdDict) : ℚ := 0

/-- `movement_tilt_degrees` (environment.py:103-104): the code computes
`sqrt(movement_effect_x**2 + movement_effect_y**2) / DEGREES_TO_GYRO` with
`movement_effect_y = 0`, and `sqrt(mx^2)` is `|mx|`. -/
def movement_tilt_degrees (u : CmdDict) : ℚ :=
  |movement_effect_x u| / DEGREES_TO_GYRO

/-- The three clamped gyroscope axes before the saturation check
(environment.py:46-90). -/
def final_gyro (t : Telemetry) (u : CmdDict) (o : StepOracle) : ℚ × ℚ × ℚ :=
  let wind_x := wind_effect_gyro t.wind_speed * o.windDirCos
  let wind_y := wind_effect_gyro t.wind_speed * o.windDirSin
  let fx := o.baseGyroX + wind_x + movement_effect_x u
  let fy := o.baseGyroY + wind_y + movement_effect_y u
  let fz := o.baseGyroZ
  (max (-1) (min 1 fx), max (-1) (min 1 fy), max (-1) (min 1 fz))

/-- `calculate_gyroscope_values` (environment.py:22-115): if the
movement-induced tilt exceeds the critical 45 degrees, each axis is
saturated to `±1` preserving sign (`1.0 if g > 0 else -1.0`) as a crash
flag; otherwise the clamped values are returned. -/
def calculate_gyroscope_values (t : Telemetry) (u : CmdDict) (o : StepOracle) : ℚ × ℚ × ℚ :=
  let g := final_gyro t u o
  if CRITICAL_TILT_DEGREES < movement_tilt_degrees u then
    ((if 0 < g.1 then 1 else -1), (if 0 < g.2.1 then 1 else -1), (if 0 < g.2.2 then 1 else -1))
  else g

/-- The squared Euclidean magnitude of a gyroscope triple. -/
def gyroMagSq (g : ℚ × ℚ × ℚ) : ℚ := g.1 ^ 2 + g.2.1 ^ 2 + g.2.2 ^ 2

/-- The new wind after the random walk and optional dust storm
(environment.py:132-147), clamped to `[0, 100]`. -/
def newWind (t : Telemetry) (o : StepOracle) : ℚ :=
  let w := max 0 (min 100 (t.wind_speed + o.windChange))
  if o.stormHappens then min 100 (w + o.stormSeverity) else w

/-- The new dust after the random walk and optional dust storm
(environment.py:137-147), clamped to `[0, 100]`. -/
def newDust (t : Telemetry) (o : StepOracle) : ℚ :=
  let d := max 0 (min 100 (t.dust_level + o.dustChange))
  if o.stormHappens then min 100 (d + o.stormSeverity) else d

/-- The sensor-status classification from the updated wind and dust
(environment.py:168-178). -/
def sensorFrom (dust wind : ℚ) : SensorStatus :=
  if 90 < dust ∨ 90 < wind then SensorStatus.RED
  else if 60 < dust ∨ 60 < wind then SensorStatus.YELLOW
  else SensorStatus.GREEN

def tiltCrashMsg : String := "Drone has crashed due to excessive tilt and loss of stability."

/-- `simulate_environmental_conditions` (environment.py:117-180).

* `user_input` is `none` for the no-input initialization branch; a present
  but empty dict is also falsy in Python (`if user_input:`), hence the
  `isEmpty` test.
* The crash test `math.sqrt (Σ g²) > 1.7` is embedded as `Σ g² > 1.7^2`
  (both sides of the original comparison are nonnegative).
* The gyroscope is computed from the argument `telemetry` (pre-update wind),
  exactly as the code passes `telemetry`, not `updated_telemetry`. -/
def simulate_environmental_conditions (t : Telemetry) (u : Option CmdDict) (o : StepOracle) :
    Except String Telemetry :=
  let wind2 := newWind t o
  let dust2 := newDust t o
  let truthy := match u with
    | some c => !c.isEmpty
    | none => false
  if truthy then
    let g := calculate_gyroscope_values t (u.getD []) o
    if (1.7 : ℚ) ^ 2 < gyroMagSq g then Except.error tiltCrashMsg
    else Except.ok { t with wind_speed := wind2, dust_level := dust2, gyroscope := g,
                            sensor_status := sensorFrom dust2 wind2 }
  else
    Except.ok { t with wind_speed := wind2, dust_level := dust2,
                       gyroscope := (o.initGyroX, o.initGyroY, o.initGyroZ),
                       sensor_status := sensorFrom dust2 wind2 }

/-- Well-formedness of one step's oracle at the altitude `alt` the drone
has when the battery and environment updates run (the post-position
`y_position`): each random draw lies in the interval the code draws it
from, `(cos θ, sin θ)` lies on the unit circle, and the battery altitude
factor obeys the bounds of the real exponential (see
`altitude_factor_range`). -/
def oracleWf (o : StepOracle) (alt : ℚ) : Prop :=
  0.6 < o.altFactor ∧ (0 ≤ alt → o.altFactor ≤ 1.8) ∧
  |o.windChange| ≤ 15 ∧ |o.dustChange| ≤ 10 ∧
  30 ≤ o.stormSeverity ∧ o.stormSeverity ≤ 70 ∧
  o.windDirCos ^ 2 + o.windDirSin ^ 2 = 1 ∧
  |o.baseGyroX| ≤ base_instability alt ∧
  |o.baseGyroY| ≤ base_instability alt ∧
  |o.baseGyroZ| ≤ base_instability alt ∧
  |o.initGyroX| ≤ 0.1 ∧ |o.initGyroY| ≤ 0.1 ∧ |o.initGyroZ| ≤ 0.1

instance (o : StepOracle) (alt : ℚ) : Decidable (oracleWf o alt) := by
  unfold oracleWf
  infer_instance

/-! ## drone.py -/

def batteryCrashMsg : String := "Drone has crashed due to battery depletion."

def negativeAltitudeMsg : String := "Drone has crashed due to negative altitude."

def maxXPositionMsg : String := "Drone has crashed due to exceeding max x position."

def redStatusMsg : String :=
  "Drone has crashed due to unsafe altitude with RED sensor status. Maximum safe altitude is 3."

def yellowStatusMsg : String :=
  "Drone has crashed due to unsafe altitude with YELLOW sensor status. Maximum safe altitude is 1000."

/-- `_update_position` (drone.py:159-173). -/
def update_position (t : Telemetry) (u : CmdDict) : Telemetry :=
  let speed := getIntD u keySpeed 0
  let altitude_change := getIntD u keyAltitude 0
  let movement := lookupKey u keyMovement
  let x1 :=
    if movement = some (PyVal.pyStr fwdStr) then t.x_position + (speed : ℚ)
    else if movement = some (PyVal.pyStr revStr) then t.x_position - (speed : ℚ)
    else t.x_position
  let y1 :=
    if 0 < |altitude_change| then t.y_position + (altitude_change : ℚ) else t.y_position
  { t with x_position := x1, y_position := y1 }

/-- The drain amount of `_update_battery` (drone.py:183-210), with the
altitude factor supplied by the oracle (see the file comment). -/
def drain_amount (u : CmdDict) (altFactor : ℚ) : ℚ :=
  let speed := getIntD u keySpeed 0
  let altitude_change := getIntD u keyAltitude 0
  let base_drain := 0.5 * (speed : ℚ) + |(altitude_change : ℚ)| * 0.005
  let total_drain := base_drain * altFactor
  max total_drain 0.1

/-- `_update_battery` (drone.py:175-225): `battery = max(0, battery - drain)`. -/
def update_battery (t : Telemetry) (u : CmdDict) (o : StepOracle) : Telemetry :=
  { t with battery := max 0 (t.battery - drain_amount u o.altFactor) }

/-- `_check_drone_crash` (drone.py:233-272): returns the crash reason and
the (possibly clamped) telemetry frozen at the crash, or `none` when no
condition fires.  The battery and negative-altitude branches clamp the
offending field to `0` before raising, exactly as the code mutates
`self.telemetry` before each `raise`. -/
def check_drone_crash (t : Telemetry) : Option (String × Telemetry) :=
  if t.battery ≤ 0 then some (batteryCrashMsg, { t with battery := 0 })
  else if t.y_position < 0 then some (negativeAltitudeMsg, { t with y_position := 0 })
  else if 100000 < |t.x_position| then some (maxXPositionMsg, t)
  else if t.sensor_status = SensorStatus.RED ∧ 3 < t.y_position then some (redStatusMsg, t)
  else if t.sensor_status = SensorStatus.YELLOW ∧ 1000 < t.y_position then
    some (yellowStatusMsg, t)
  else none

/-- One drone's per-session state (drone.py:14-27). -/
structure DroneState where
  telemetry : Telemetry
  iteration_count : ℕ
  total_distance : ℚ
  crashed : Bool
  crash_reason : Option String
deriving DecidableEq, Repr

def initialDroneState : DroneState :=
  { telemetry := initial_telemetry
    iteration_count := 0
    total_distance := 0
    crashed := false
    crash_reason := none }

/-- How `update_telemetry` ends: a successful new telemetry, a
pre-validation rejection (`ValueError` for invalid input), a rejection of
an already crashed drone, or a fresh crash (`ValueError` from the
environment update or the crash check). -/
inductive StepResult
| success (t : Telemetry)
| invalid (msg : String)
| alreadyCrashed (msg : String)
| crashed (msg : String)
deriving DecidableEq, Repr

/-- Python renders `None` inside an f-string as "None". -/
def optionReasonStr : Option String → String
| some s => s
| none => "None"

/-- The result of one `update_telemetry` call: the outcome, the drone
state afterwards, and what (if anything) was written to the telemetry
store (`self.telemetry_manager.update_telemetry`, drone.py:110 and 121). -/
structure StepOutcome where
  result : StepResult
  state : DroneState
  storeWrite : Option Telemetry
deriving DecidableEq, Repr

/-- `DroneSimulator.update_telemetry` (drone.py:37-124).

* An already crashed drone is rejected before anything else (lines 42-45).
* Validation failure raises before any state is touched (lines 48-52).
* Then position, battery and environment updates run in order; a
  `ValueError` out of the environment update (excessive tilt) is caught by
  the `except` block with `self.telemetry` still holding the pre-environment
  value `t2` (the assignment on line 229 never happened), which is what
  gets frozen and saved.
* A `ValueError` out of `_check_drone_crash` freezes the clamped telemetry.
* On success the distance and the iteration counter update
  (`speed != 0 and y_position != 0`, drone.py:104 — note: the *resulting*
  `y_position`, not the commanded altitude delta) and the new telemetry is
  saved. -/
def update_telemetry (s : DroneState) (u : CmdDict) (o : StepOracle) : StepOutcome :=
  if s.crashed then
    { result := StepResult.alreadyCrashed
        ("Drone has crashed: " ++ optionReasonStr s.crash_reason ++ ". Cannot accept new commands.")
      state := s
      storeWrite := none }
  else
    match validate_drone_input u with
    | some err =>
      { result := StepResult.invalid ("Invalid input data: " ++ err)
        state := s
        storeWrite := none }
    | none =>
      let prev_x := s.telemetry.x_position
      let t1 := update_position s.telemetry u
      let t2 := update_battery t1 u o
      match simulate_environmental_conditions t2 (some u) o with
      | Except.error msg =>
        { result := StepResult.crashed msg
          state := { s with telemetry := t2, crashed := true, crash_reason := some msg }
          storeWrite := some t2 }
      | Except.ok t3 =>
        match check_drone_crash t3 with
        | some (msg, tFin) =>
          { result := StepResult.crashed msg
            state := { s with telemetry := tFin, crashed := true, crash_reason := some msg }
            storeWrite := some tFin }
        | none =>
          let distance := |t3.x_position - prev_x|
          { result := StepResult.success t3
            state :=
              { s with telemetry := t3
                       total_distance := s.total_distance + distance
                       iteration_count :=
                         if getIntD u keySpeed 0 ≠ 0 ∧ t3.y_position ≠ 0 then
                           s.iteration_count + 1
                         else s.iteration_count }
            storeWrite := some t3 }

/-- Run a list of commands (each with its oracle) through the drone. -/
def runDrone (s : DroneState) : List (CmdDict × StepOracle) → DroneState
| [] => s
| (u, o) :: rest => runDrone (update_telemetry s u o).state rest

/-! ## server.py -/

/-- The per-connection metrics dict (server.py:44-51; the session-level
`iterations`/`total_distance` the responses report). -/
structure ServerMetrics where
  iterations : ℕ
  total_distance : ℚ
  commands_sent : ℕ
  last_position : ℚ
deriving DecidableEq, Repr

def initialServerMetrics : ServerMetrics :=
  { iterations := 0, total_distance := 0, commands_sent := 0, last_position := 0 }

/-- A response of `handle_drone_command`: the success shape
(server.py:159-166) or the crash shape (server.py:185-194).  The wire
encoding of the telemetry string is out of scope; the response carries the
telemetry it would encode. -/
inductive ServerResponse
| success (telemetry : Telemetry) (iterations : ℕ) (total_distance : ℚ)
| crashResp (message : String) (iterations : ℕ) (total_distance : ℚ)
    (final_telemetry : Telemetry) (connection_terminated : Bool)
deriving DecidableEq, Repr

structure HandleOutcome where
  response : ServerResponse
  drone : DroneState
  metrics : ServerMetrics
  storeWrite : Option Telemetry
deriving DecidableEq, Repr

/-- `handle_drone_command` (server.py:109-197) for an existing session:
`commands_sent` is bumped first; on success the session `iterations` and
`total_distance` update only when both `data.get("speed", 0) != 0` and
`data.get("altitude", 0) != 0` (server.py:138-141); *every* `ValueError`
out of `update_telemetry` — a fresh crash, an invalid command, or an
already crashed drone — lands in the `except ValueError` block and
produces the crash-shaped response with `connection_terminated: True`,
built from `drone.telemetry` as it stands after the call. -/
def handle_drone_command (d : DroneState) (m : ServerMetrics) (data : CmdDict) (o : StepOracle) :
    HandleOutcome :=
  let m1 := { m with commands_sent := m.commands_sent + 1 }
  let prev_position := d.telemetry.x_position
  let out := update_telemetry d data o
  match out.result with
  | StepResult.success t =>
    let m2 :=
      if getIntD data keySpeed 0 ≠ 0 ∧ getIntD data keyAltitude 0 ≠ 0 then
        { m1 with iterations := m1.iterations + 1
                  total_distance := m1.total_distance + |t.x_position - prev_position| }
      else m1
    let m3 := { m2 with last_position := t.x_position }
    { response := ServerResponse.success t m3.iterations m3.total_distance
      drone := out.state
      metrics := m3
      storeWrite := out.storeWrite }
  | StepResult.invalid msg =>
    { response := ServerResponse.crashResp msg m1.iterations m1.total_distance
        out.state.telemetry true
      drone := out.state
      metrics := m1
      storeWrite := out.storeWrite }
  | StepResult.alreadyCrashed msg =>
    { response := ServerResponse.crashResp msg m1.iterations m1.total_distance
        out.state.telemetry true
      drone := out.state
      metrics := m1
      storeWrite := out.storeWrite }
  | StepResult.crashed msg =>
    { response := ServerResponse.crashResp msg m1.iterations m1.total_distance
        out.state.telemetry true
      drone := out.state
      metrics := m1
      storeWrite := out.storeWrite }

/-- `handle_connection` closes the websocket exactly when the response has
status "crashed" and `connection_terminated` (server.py:248-251). -/
def connection_closes (r : ServerResponse) : Bool :=
  match r with
  | ServerResponse.crashResp _ _ _ _ term => term
  | _ => false


/-! ## Concrete inputs used by witnesses and counterexamples -/

/-- A concrete well-formed forward command dict. -/
def cmdFwd (speed altitude : ℤ) : CmdDict :=
  [(keySpeed, PyVal.pyInt speed), (keyAltitude, PyVal.pyInt altitude),
   (keyMovement, PyVal.pyStr fwdStr)]

/-- A quiet oracle: no wind or dust change, no storm, heading `θ = 0`, no
base-instability fluctuation, `altFactor = 1.8` (the exact value of the
code's altitude factor at `y = 0`, where `exp(0) = 1`). -/
def calmOracle : StepOracle :=
  { altFactor := 1.8, windChange := 0, dustChange := 0, stormHappens := false,
    stormSeverity := 30, windDirCos := 1, windDirSin := 0,
    baseGyroX := 0, baseGyroY := 0, baseGyroZ := 0,
    initGyroX := 0, initGyroY := 0, initGyroZ := 0 }

/-- An oracle for a step whose post-position altitude is `-500`: the base
instability is then `0.1 * (1 - min 1 (-10)) = 1.1`, so the three base
draws of `1` are inside the interval the code draws from, and `altFactor`
is a rational approximation of the code's
`0.6 + 1.2 * exp(-0.03 * (-500)) ≈ 3922821.4` (any admissible factor
`> 0.6` sends the battery of this step to `0`: the base drain is `2.5`). -/
def tiltOracle : StepOracle :=
  { altFactor := 3922821, windChange := 0, dustChange := 0, stormHappens := false,
    stormSeverity := 30, windDirCos := 1, windDirSin := 0,
    baseGyroX := 1, baseGyroY := 1, baseGyroZ := 1,
    initGyroX := 0, initGyroY := 0, initGyroZ := 0 }

/-- An oracle for a step whose post-position altitude is `-5`: `altFactor
= 2` approximates the code's `0.6 + 1.2 * exp(0.15) ≈ 1.994` (the step's
outcome is the same for every admissible factor: the base drain `0.025`
is below the `0.1` hover floor). -/
def negAltOracle : StepOracle :=
  { altFactor := 2, windChange := 0, dustChange := 0, stormHappens := false,
    stormSeverity := 30, windDirCos := 1, windDirSin := 0,
    baseGyroX := 0, baseGyroY := 0, baseGyroZ := 0,
    initGyroX := 0, initGyroY := 0, initGyroZ := 0 }

/-- How many of the five crash conditions of `_check_drone_crash` a
telemetry state violates simultaneously. -/
def violatedCount (t : Telemetry) : ℕ :=
  (if t.battery ≤ 0 then 1 else 0) +
  (if t.y_position < 0 then 1 else 0) +
  (if 100000 < |t.x_position| then 1 else 0) +
  (if t.sensor_status = SensorStatus.RED ∧ 3 < t.y_position then 1 else 0) +
  (if t.sensor_status = SensorStatus.YELLOW ∧ 1000 < t.y_position then 1 else 0)

/-- Modelled from the spec's crash-priority words (§4.1 step 6): the first
true condition in the fixed order battery depletion → negative altitude →
exceeded max x → RED over altitude 3 → YELLOW over altitude 1000, used to
compare the code's reported cause against the spec's order. -/
def specFirstCrashCause (t : Telemetry) : Option String :=
  if t.battery ≤ 0 then some batteryCrashMsg
  else if t.y_position < 0 then some negativeAltitudeMsg
  else if 100000 < |t.x_position| then some maxXPositionMsg
  else if t.sensor_status = SensorStatus.RED ∧ 3 < t.y_position then some redStatusMsg
  else if t.sensor_status = SensorStatus.YELLOW ∧ 1000 < t.y_position then some yellowStatusMsg
  else none

/-- A telemetry state violating two crash conditions at once (battery and
negative altitude). -/
def tDoubleViolation : Telemetry :=
  { x_position := 0, y_position := -2, battery := -5, gyroscope := (0, 0, 0),
    wind_speed := 0, dust_level := 0, sensor_status := SensorStatus.GREEN }

/-- A telemetry state whose battery is exactly `0` and which is otherwise
entirely safe. -/
def tZeroBattery : Telemetry :=
  { x_position := 0, y_position := 0, battery := 0, gyroscope := (0, 0, 0),
    wind_speed := 0, dust_level := 0, sensor_status := SensorStatus.GREEN }

/-- A telemetry state sitting exactly on every safe boundary: altitude
exactly `3` under RED status, `|x|` exactly `100000`, positive battery. -/
def tBoundary : Telemetry :=
  { x_position := 100000, y_position := 3, battery := 5, gyroscope := (0, 0, 0),
    wind_speed := 95, dust_level := 95, sensor_status := SensorStatus.RED }

/-- A drone session already in the crashed state. -/
def crashedDrone : DroneState :=
  { telemetry := tZeroBattery
    iteration_count := 3
    total_distance := 7
    crashed := true
    crash_reason := some batteryCrashMsg }

/-- The code's battery altitude factor
`0.6 + (1.8 - 0.6) * exp(-0.03 * y)` (drone.py:198-203) really satisfies
the bounds `oracleWf` imposes on `altFactor`. -/
theorem altitude_factor_range (y : ℝ) :
    0.6 < 0.6 + (1.8 - 0.6) * Real.exp (-(0.03) * y) ∧
    (0 ≤ y → 0.6 + (1.8 - 0.6) * Real.exp (-(0.03) * y) ≤ 1.8) := by
  constructor
  · nlinarith [Real.exp_pos (-(0.03) * y)]
  · intro hy
    have h1 : Real.exp (-(0.03) * y) ≤ 1 := by
      rw [Real.exp_le_one_iff]
      nlinarith
    nlinarith


/-! ## Evaluation lemmas

Staging lemmas that let concrete runs of the step function be computed
piece by piece (rational arithmetic is evaluated by `norm_num`, which the
kernel-level reduction of `ℚ` literals does not support). -/

theorem update_telemetry_already_crashed (s : DroneState) (u : CmdDict) (o : StepOracle)
    (h : s.crashed = true) :
    update_telemetry s u o =
      { result := StepResult.alreadyCrashed
          ("Drone has crashed: " ++ optionReasonStr s.crash_reason ++
            ". Cannot accept new commands.")
        state := s
        storeWrite := none } := by
  simp only [update_telemetry, h, if_true]

theorem update_telemetry_invalid (s : DroneState) (u : CmdDict) (o : StepOracle) (e : String)
    (hc : s.crashed = false) (hv : validate_drone_input u = some e) :
    update_telemetry s u o =
      { result := StepResult.invalid ("Invalid input data: " ++ e)
        state := s
        storeWrite := none } := by
  simp only [update_telemetry, hc, Bool.false_eq_true, if_false, hv]

theorem update_telemetry_env_error (s : DroneState) (u : CmdDict) (o : StepOracle)
    (t2 : Telemetry) (msg : String)
    (hc : s.crashed = false) (hv : validate_drone_input u = none)
    (h2 : update_battery (update_position s.telemetry u) u o = t2)
    (h3 : simulate_environmental_conditions t2 (some u) o = Except.error msg) :
    update_telemetry s u o =
      { result := StepResult.crashed msg
        state := { s with telemetry := t2, crashed := true, crash_reason := some msg }
        storeWrite := some t2 } := by
  simp only [update_telemetry, hc, Bool.false_eq_true, if_false, hv, h2, h3]

theorem update_telemetry_check_crash (s : DroneState) (u : CmdDict) (o : StepOracle)
    (t2 t3 tFin : Telemetry) (msg : String)
    (hc : s.crashed = false) (hv : validate_drone_input u = none)
    (h2 : update_battery (update_position s.telemetry u) u o = t2)
    (h3 : simulate_environmental_conditions t2 (some u) o = Except.ok t3)
    (h4 : check_drone_crash t3 = some (msg, tFin)) :
    update_telemetry s u o =
      { result := StepResult.crashed msg
        state := { s with telemetry := tFin, crashed := true, crash_reason := some msg }
        storeWrite := some tFin } := by
  simp only [update_telemetry, hc, Bool.false_eq_true, if_false, hv, h2, h3, h4]

theorem update_telemetry_success (s : DroneState) (u : CmdDict) (o : StepOracle)
    (t2 t3 : Telemetry)
    (hc : s.crashed = false) (hv : validate_drone_input u = none)
    (h2 : update_battery (update_position s.telemetry u) u o = t2)
    (h3 : simulate_environmental_conditions t2 (some u) o = Except.ok t3)
    (h4 : check_drone_crash t3 = none) :
    update_telemetry s u o =
      { result := StepResult.success t3
        state :=
          { s with telemetry := t3
                   total_distance := s.total_distance + |t3.x_position - s.telemetry.x_position|
                   iteration_count :=
                     if getIntD u keySpeed 0 ≠ 0 ∧ t3.y_position ≠ 0 then s.iteration_count + 1
                     else s.iteration_count }
        storeWrite := some t3 } := by
  simp only [update_telemetry, hc, Bool.false_eq_true, if_false, hv, h2, h3, h4]

theorem simulate_env_tilt (t : Telemetry) (u : CmdDict) (o : StepOracle) (g : ℚ × ℚ × ℚ)
    (hne : u.isEmpty = false)
    (hg : calculate_gyroscope_values t u o = g)
    (hmag : (1.7 : ℚ) ^ 2 < gyroMagSq g) :
    simulate_environmental_conditions t (some u) o = Except.error tiltCrashMsg := by
  simp only [simulate_environmental_conditions, hne, Option.getD_some, hg, Bool.not_false,
    if_true, hmag]

theorem simulate_env_ok (t : Telemetry) (u : CmdDict) (o : StepOracle) (g : ℚ × ℚ × ℚ)
    (hne : u.isEmpty = false)
    (hg : calculate_gyroscope_values t u o = g)
    (hmag : ¬ (1.7 : ℚ) ^ 2 < gyroMagSq g) :
    simulate_environmental_conditions t (some u) o =
      Except.ok { t with wind_speed := newWind t o, dust_level := newDust t o, gyroscope := g,
                         sensor_status := sensorFrom (newDust t o) (newWind t o) } := by
  simp only [simulate_environmental_conditions, hne, Option.getD_some, hg, Bool.not_false,
    if_true, hmag, if_false]


theorem getIntD_cmdFwd_speed (a b : ℤ) : getIntD (cmdFwd a b) keySpeed 0 = a := rfl

theorem getIntD_cmdFwd_altitude (a b : ℤ) : getIntD (cmdFwd a b) keyAltitude 0 = b := rfl

theorem lookupKey_cmdFwd_movement (a b : ℤ) :
    lookupKey (cmdFwd a b) keyMovement = some (PyVal.pyStr fwdStr) := rfl

theorem getValD_cmdFwd_movement (a b : ℤ) (d : PyVal) :
    getValD (cmdFwd a b) keyMovement d = PyVal.pyStr fwdStr := rfl

theorem cmdFwd_isEmpty (a b : ℤ) : (cmdFwd a b).isEmpty = false := rfl

theorem validate_cmdFwd (a b : ℤ) (h1 : 0 ≤ a) (h2 : a ≤ 5) :
    validate_drone_input (cmdFwd a b) = none := by
  have hk : validate_required_keys (cmdFwd a b) [keySpeed, keyAltitude, keyMovement] = none := rfl
  have hs : getValD (cmdFwd a b) keySpeed (PyVal.pyInt 0) = PyVal.pyInt a := rfl
  have ha : getValD (cmdFwd a b) keyAltitude (PyVal.pyInt 0) = PyVal.pyInt b := rfl
  have hm : getValD (cmdFwd a b) keyMovement (PyVal.pyInt 0) = PyVal.pyStr fwdStr := rfl
  simp [validate_drone_input, hk, hs, ha, hm, validate_speed, validate_altitude,
    validate_movement, h1, h2]

/-! ## General helper lemmas -/

theorem clamp_range (v : ℚ) : -1 ≤ max (-1) (min 1 v) ∧ max (-1) (min 1 v) ≤ 1 :=
  ⟨le_max_left _ _, max_le (by norm_num) (min_le_left _ _)⟩

theorem clamp_abs_le (v b : ℚ) (hv : |v| ≤ b) (hb : b ≤ 1) :
    |max (-1) (min 1 v)| ≤ b := by
  rw [abs_le] at hv ⊢
  constructor
  · exact le_max_of_le_right (le_min (by linarith) hv.1)
  · exact max_le (by linarith) (le_trans (min_le_right _ _) hv.2)

theorem newWind_range (t : Telemetry) (o : StepOracle) (hsev : 0 ≤ o.stormSeverity) :
    0 ≤ newWind t o ∧ newWind t o ≤ 100 := by
  unfold newWind
  split
  · constructor
    · exact le_min (by positivity) (by positivity)
    · exact min_le_left _ _
  · exact ⟨le_max_left _ _, max_le (by norm_num) (min_le_left _ _)⟩

theorem newDust_range (t : Telemetry) (o : StepOracle) (hsev : 0 ≤ o.stormSeverity) :
    0 ≤ newDust t o ∧ newDust t o ≤ 100 := by
  unfold newDust
  split
  · constructor
    · exact le_min (by positivity) (by positivity)
    · exact min_le_left _ _
  · exact ⟨le_max_left _ _, max_le (by norm_num) (min_le_left _ _)⟩

theorem simulate_ok_fields (t : Telemetry) (u : Option CmdDict) (o : StepOracle) (t' : Telemetry)
    (h : simulate_environmental_conditions t u o = Except.ok t') :
    t'.battery = t.battery ∧ t'.x_position = t.x_position ∧ t'.y_position = t.y_position ∧
    t'.wind_speed = newWind t o ∧ t'.dust_level = newDust t o ∧
    t'.sensor_status = sensorFrom (newDust t o) (newWind t o) := by
  simp only [simulate_environmental_conditions] at h
  split at h
  · split at h
    · exact absurd h (by simp)
    · obtain rfl := (Except.ok.injEq _ _).mp h.symm
      simp
  · obtain rfl := (Except.ok.injEq _ _).mp h.symm
    simp

theorem simulate_error_msg (t : Telemetry) (u : Option CmdDict) (o : StepOracle) (msg : String)
    (h : simulate_environmental_conditions t u o = Except.error msg) :
    msg = tiltCrashMsg := by
  simp only [simulate_environmental_conditions] at h
  split at h
  · split at h
    · obtain rfl := (Except.error.injEq _ _).mp h.symm
      rfl
    · exact absurd h (by simp)
  · exact absurd h (by simp)

theorem simulate_ok_gyro (t : Telemetry) (u : Option CmdDict) (o : StepOracle) (t' : Telemetry)
    (h : simulate_environmental_conditions t u o = Except.ok t') :
    (∃ c, u = some c ∧ t'.gyroscope = calculate_gyroscope_values t c o) ∨
    t'.gyroscope = (o.initGyroX, o.initGyroY, o.initGyroZ) := by
  cases u with
  | none =>
    right
    simp only [simulate_environmental_conditions, Bool.false_eq_true, if_false] at h
    obtain rfl := (Except.ok.injEq _ _).mp h.symm
    rfl
  | some c =>
    simp only [simulate_environmental_conditions] at h
    split at h
    · split at h
      · exact absurd h (by simp)
      · obtain rfl := (Except.ok.injEq _ _).mp h.symm
        left
        exact ⟨c, rfl, rfl⟩
    · obtain rfl := (Except.ok.injEq _ _).mp h.symm
      right
      rfl

theorem calc_gyro_range (t : Telemetry) (u : CmdDict) (o : StepOracle) :
    (-1 ≤ (calculate_gyroscope_values t u o).1 ∧ (calculate_gyroscope_values t u o).1 ≤ 1) ∧
    (-1 ≤ (calculate_gyroscope_values t u o).2.1 ∧ (calculate_gyroscope_values t u o).2.1 ≤ 1) ∧
    (-1 ≤ (calculate_gyroscope_values t u o).2.2 ∧ (calculate_gyroscope_values t u o).2.2 ≤ 1) := by
  unfold calculate_gyroscope_values final_gyro
  split
  · refine ⟨?_, ?_, ?_⟩ <;> dsimp only <;> split <;> norm_num
  · exact ⟨clamp_range _, clamp_range _, clamp_range _⟩

theorem drain_amount_ge (u : CmdDict) (f : ℚ) : 0.1 ≤ drain_amount u f :=
  le_max_right _ _

theorem update_battery_fields (t : Telemetry) (u : CmdDict) (o : StepOracle) :
    (update_battery t u o).x_position = t.x_position ∧
    (update_battery t u o).y_position = t.y_position ∧
    (update_battery t u o).wind_speed = t.wind_speed ∧
    (update_battery t u o).dust_level = t.dust_level ∧
    (update_battery t u o).sensor_status = t.sensor_status := by
  unfold update_battery
  exact ⟨rfl, rfl, rfl, rfl, rfl⟩

theorem update_battery_le (t : Telemetry) (u : CmdDict) (o : StepOracle)
    (h : 0 ≤ t.battery) :
    0 ≤ (update_battery t u o).battery ∧ (update_battery t u o).battery ≤ t.battery := by
  unfold update_battery
  refine ⟨le_max_left _ _, max_le h ?_⟩
  have := drain_amount_ge u o.altFactor
  linarith

theorem update_position_fields (t : Telemetry) (u : CmdDict) :
    (update_position t u).battery = t.battery ∧
    (update_position t u).wind_speed = t.wind_speed ∧
    (update_position t u).dust_level = t.dust_level ∧
    (update_position t u).sensor_status = t.sensor_status := by
  unfold update_position
  exact ⟨rfl, rfl, rfl, rfl⟩

theorem required_keys_none (d : CmdDict) (keys : List String)
    (h : validate_required_keys d keys = none) :
    ∀ k ∈ keys, lookupKey d k ≠ none := by
  intro k hk hnone
  have := List.findSome?_eq_none_iff.mp h k hk
  rw [if_pos hnone] at this
  exact absurd this (by simp)

/-- What passing validation guarantees about the three fields. -/
theorem validate_ok_parts (u : CmdDict) (h : validate_drone_input u = none) :
    (∃ n : ℤ, lookupKey u keySpeed = some (PyVal.pyInt n) ∧ 0 ≤ n ∧ n ≤ 5) ∧
    (∃ a : ℤ, lookupKey u keyAltitude = some (PyVal.pyInt a)) ∧
    (lookupKey u keyMovement = some (PyVal.pyStr fwdStr) ∨
     lookupKey u keyMovement = some (PyVal.pyStr revStr)) := by
  unfold validate_drone_input at h
  cases hk : validate_required_keys u [keySpeed, keyAltitude, keyMovement] with
  | some e => rw [hk] at h; exact absurd h (by simp)
  | none =>
  rw [hk] at h
  have hkeys := required_keys_none u _ hk
  have hsp := hkeys keySpeed (by simp)
  have hal := hkeys keyAltitude (by simp)
  have hmo := hkeys keyMovement (by simp)
  cases hvs : lookupKey u keySpeed with
  | none => exact absurd hvs hsp
  | some vs =>
  rw [show getValD u keySpeed (PyVal.pyInt 0) = vs by rw [getValD, hvs]; rfl] at h
  cases vs with
  | pyInt n =>
    rw [validate_speed] at h
    by_cases hr : 0 ≤ n ∧ n ≤ 5
    · rw [if_neg (not_not_intro hr)] at h
      cases hva : lookupKey u keyAltitude with
      | none => exact absurd hva hal
      | some va =>
      rw [show getValD u keyAltitude (PyVal.pyInt 0) = va by rw [getValD, hva]; rfl] at h
      cases va with
      | pyInt a =>
        rw [validate_altitude] at h
        cases hvm : lookupKey u keyMovement with
        | none => exact absurd hvm hmo
        | some vm =>
        rw [show getValD u keyMovement (PyVal.pyInt 0) = vm by rw [getValD, hvm]; rfl] at h
        cases vm with
        | pyStr s =>
          rw [validate_movement] at h
          by_cases hfr : s = fwdStr ∨ s = revStr
          · refine ⟨⟨n, rfl, hr⟩, ⟨a, rfl⟩, ?_⟩
            cases hfr with
            | inl hf => left; rw [hf]
            | inr hf => right; rw [hf]
          · rw [if_pos hfr] at h
            exact absurd h (by simp)
        | pyInt m => exact absurd h (by simp [validate_movement])
        | pyFloat q => exact absurd h (by simp [validate_movement])
      | pyFloat q => exact absurd h (by simp [validate_altitude])
      | pyStr s => exact absurd h (by simp [validate_altitude])
    · rw [if_pos hr] at h
      exact absurd h (by simp)
  | pyFloat q => exact absurd h (by simp [validate_speed])
  | pyStr s => exact absurd h (by simp [validate_speed])

theorem validate_ok_isEmpty (u : CmdDict) (h : validate_drone_input u = none) :
    u.isEmpty = false := by
  obtain ⟨⟨n, hvs, _⟩, _, _⟩ := validate_ok_parts u h
  cases u with
  | nil => exact absurd hvs (by simp [lookupKey])
  | cons a l => rfl

theorem validate_ok_speed_range (u : CmdDict) (h : validate_drone_input u = none) :
    0 ≤ getIntD u keySpeed 0 ∧ getIntD u keySpeed 0 ≤ 5 := by
  obtain ⟨⟨n, hvs, hr⟩, _, _⟩ := validate_ok_parts u h
  rw [getIntD, hvs]
  exact hr

/-! ## Claim C3 — crash-cause priority -/

/-- Claim C3: for every post-update telemetry state that violates two or
more crash conditions simultaneously, the reported crash cause is the
first true condition in the fixed order battery depletion (clamped to 0) →
negative altitude (clamped to 0) → exceeded max x position → unsafe
altitude with RED status → unsafe altitude with YELLOW status. -/
theorem claim_C3_crash_priority (t : Telemetry) (h : 2 ≤ violatedCount t) :
    (check_drone_crash t).map Prod.fst = specFirstCrashCause t := by
  unfold check_drone_crash specFirstCrashCause
  split_ifs <;> simp

theorem claim_C3_witness :
    2 ≤ violatedCount tDoubleViolation ∧
    (check_drone_crash tDoubleViolation).map Prod.fst = specFirstCrashCause tDoubleViolation := by
  refine ⟨?_, claim_C3_crash_priority tDoubleViolation ?_⟩ <;>
    norm_num [violatedCount, tDoubleViolation]

/-! ## Claim C6 — AlreadyCrashed freezes everything -/

/-- Claim C6: for every session already in the crashed state, a further
`update_telemetry` call fails with an AlreadyCrashed error before any
processing: the state (telemetry, metrics counters, crash_reason) is
returned unchanged and nothing is written to the store. -/
theorem claim_C6_already_crashed (s : DroneState) (u : CmdDict) (o : StepOracle)
    (h : s.crashed = true) :
    update_telemetry s u o =
      { result := StepResult.alreadyCrashed
          ("Drone has crashed: " ++ optionReasonStr s.crash_reason ++
            ". Cannot accept new commands.")
        state := s
        storeWrite := none } := by
  simp only [update_telemetry, h, if_true]

theorem claim_C6_witness :
    update_telemetry crashedDrone (cmdFwd 1 1) calmOracle =
      { result := StepResult.alreadyCrashed
          ("Drone has crashed: " ++ batteryCrashMsg ++ ". Cannot accept new commands.")
        state := crashedDrone
        storeWrite := none } :=
  claim_C6_already_crashed crashedDrone (cmdFwd 1 1) calmOracle rfl

/-! ## Claim C7 — boundary strictness (corrected) -/

/-- Counterexample to claim C7 as stated: a state whose battery is exactly
`0` (all other conditions safe) does crash — the code's battery comparison
is the non-strict `battery <= 0` (drone.py:245), not a strict one. -/
theorem claim_C7_counterexample :
    tZeroBattery.battery = 0 ∧
    check_drone_crash tZeroBattery = some (batteryCrashMsg, tZeroBattery) := by
  constructor
  · norm_num [tZeroBattery]
  · norm_num [check_drone_crash, tZeroBattery]

/-- Claim C7 as amended: the altitude, x-range and status thresholds are
strict, so those boundary values (`y = 0`, `y = 3` under RED, `y = 1000`
under YELLOW, `|x| = 100000`) are safe, but the battery comparison is the
non-strict `battery <= 0`: battery exactly `0` crashes with cause battery
depletion. -/
theorem claim_C7_amended (t : Telemetry) :
    (t.battery ≤ 0 → (check_drone_crash t).map Prod.fst = some batteryCrashMsg) ∧
    (0 < t.battery → 0 ≤ t.y_position → |t.x_position| ≤ 100000 →
      ¬ (t.sensor_status = SensorStatus.RED ∧ 3 < t.y_position) →
      ¬ (t.sensor_status = SensorStatus.YELLOW ∧ 1000 < t.y_position) →
      check_drone_crash t = none) := by
  constructor
  · intro hb
    unfold check_drone_crash
    rw [if_pos hb]
    rfl
  · intro hb hy hx hr hyel
    unfold check_drone_crash
    rw [if_neg (by linarith), if_neg (by linarith), if_neg (by linarith), if_neg hr,
      if_neg hyel]

theorem claim_C7_witness :
    check_drone_crash tBoundary = none ∧
    (check_drone_crash { tZeroBattery with x_position := 7 }).map Prod.fst =
      some batteryCrashMsg := by
  constructor
  · exact (claim_C7_amended tBoundary).2 (by norm_num [tBoundary]) (by norm_num [tBoundary])
      (by norm_num [tBoundary]) (by norm_num [tBoundary]) (by norm_num [tBoundary])
  · exact (claim_C7_amended _).1 (by norm_num [tZeroBattery])

/-! ## Claim C10 — telemetry store frame effect -/

/-- Claim C10: a successful transition writes the just-computed telemetry
to the store (which is also the session's new telemetry), a crashing
transition writes the frozen final telemetry and marks the session
crashed, and a transition rejected as InvalidCommand or AlreadyCrashed
writes nothing and leaves the session state untouched. -/
theorem claim_C10_store_writes (s : DroneState) (u : CmdDict) (o : StepOracle) :
    (∀ t, (update_telemetry s u o).result = StepResult.success t →
      (update_telemetry s u o).storeWrite = some t ∧
      (update_telemetry s u o).state.telemetry = t) ∧
    (∀ msg, (update_telemetry s u o).result = StepResult.crashed msg →
      (update_telemetry s u o).storeWrite = some (update_telemetry s u o).state.telemetry ∧
      (update_telemetry s u o).state.crashed = true) ∧
    (∀ msg, (update_telemetry s u o).result = StepResult.invalid msg →
      (update_telemetry s u o).storeWrite = none ∧ (update_telemetry s u o).state = s) ∧
    (∀ msg, (update_telemetry s u o).result = StepResult.alreadyCrashed msg →
      (update_telemetry s u o).storeWrite = none ∧ (update_telemetry s u o).state = s) := by
  unfold update_telemetry
  cases hcr : s.crashed
  · cases hval : validate_drone_input u
    · cases hsim : simulate_environmental_conditions
        (update_battery (update_position s.telemetry u) u o) (some u) o
      · refine ⟨fun t ht => ?_, fun m hm => ?_, fun m hm => ?_, fun m hm => ?_⟩ <;> simp_all
      · rename_i t3
        cases hchk : check_drone_crash t3
        · refine ⟨fun t ht => ?_, fun m hm => ?_, fun m hm => ?_, fun m hm => ?_⟩ <;> simp_all
        · rename_i p
          obtain ⟨msg0, tFin⟩ := p
          refine ⟨fun t ht => ?_, fun m hm => ?_, fun m hm => ?_, fun m hm => ?_⟩ <;> simp_all
    · refine ⟨fun t ht => ?_, fun m hm => ?_, fun m hm => ?_, fun m hm => ?_⟩ <;> simp_all
  · refine ⟨fun t ht => ?_, fun m hm => ?_, fun m hm => ?_, fun m hm => ?_⟩ <;> simp_all

theorem claim_C10_witness :
    (update_telemetry crashedDrone (cmdFwd 1 1) calmOracle).storeWrite = none ∧
    (update_telemetry crashedDrone (cmdFwd 1 1) calmOracle).state = crashedDrone :=
  (claim_C10_store_writes crashedDrone (cmdFwd 1 1) calmOracle).2.2.2 _ (by
    rw [update_telemetry_already_crashed crashedDrone (cmdFwd 1 1) calmOracle rfl])

/-! ## Claim C1 — session iteration counting -/

/-- Claim C1: for every successfully applied command, the session's
reported iterations counter (the per-session server metrics of
server.py:138-141, the value returned in every response) is incremented if
and only if both the command's speed and the command's altitude delta are
nonzero; a command with speed 0 or altitude 0 never increments it,
regardless of the resulting position or battery.  (The drone-internal
`iteration_count` of drone.py:104 instead tests the resulting
`y_position`; it is not the counter the session reports.) -/
theorem claim_C1_session_iterations (d : DroneState) (m : ServerMetrics) (data : CmdDict)
    (o : StepOracle) (t : Telemetry)
    (hs : (update_telemetry d data o).result = StepResult.success t) :
    ((handle_drone_command d m data o).metrics.iterations = m.iterations + 1 ↔
      (getIntD data keySpeed 0 ≠ 0 ∧ getIntD data keyAltitude 0 ≠ 0)) ∧
    ((getIntD data keySpeed 0 = 0 ∨ getIntD data keyAltitude 0 = 0) →
      (handle_drone_command d m data o).metrics.iterations = m.iterations) := by
  simp only [handle_drone_command, hs]
  split
  · rename_i hcond
    exact ⟨by simp [hcond], fun hz => by tauto⟩
  · rename_i hcond
    constructor
    · simp only [iff_false_intro hcond, iff_false]
      omega
    · intro _
      rfl

/-! ## Claim C2 — invalid commands (corrected) -/

/-- Counterexample to claim C2 as stated: the out-of-range command
`{"speed": 7, "altitude": 0, "movement": "fwd"}` is rejected by validation
with the session state untouched, but the server answers with the
crash-shaped response (`status: "crashed"`, `connection_terminated: true`)
— not a structured error distinct from a crash — and `handle_connection`
then closes the connection. -/
theorem claim_C2_counterexample :
    (handle_drone_command initialDroneState initialServerMetrics (cmdFwd 7 0)
        calmOracle).response =
      ServerResponse.crashResp
        "Invalid input data: 'speed' must be between 0 and 5, got 7"
        0 0 initial_telemetry true ∧
    connection_closes
      (handle_drone_command initialDroneState initialServerMetrics (cmdFwd 7 0)
        calmOracle).response = true := by
  have hv : validate_drone_input (cmdFwd 7 0) =
      some "'speed' must be between 0 and 5, got 7" := rfl
  have h := update_telemetry_invalid initialDroneState (cmdFwd 7 0) calmOracle _ rfl hv
  constructor
  · simp only [handle_drone_command, h]
    rfl
  · simp only [handle_drone_command, h, connection_closes]

/-- Claim C2 as amended: a command that fails validation raises
InvalidCommand with the session's telemetry, crashed flag, counters and
the telemetry store all untouched, but the server reports it through the
same `except ValueError` path as a crash: the response is the crash shape
(`status: "crashed"`) carrying the validation message and
`connection_terminated: true`, and the connection is closed rather than
kept open. -/
theorem claim_C2_amended (d : DroneState) (m : ServerMetrics) (u : CmdDict) (o : StepOracle)
    (e : String) (hc : d.crashed = false) (hv : validate_drone_input u = some e) :
    handle_drone_command d m u o =
      { response := ServerResponse.crashResp ("Invalid input data: " ++ e) m.iterations
          m.total_distance d.telemetry true
        drone := d
        metrics := { m with commands_sent := m.commands_sent + 1 }
        storeWrite := none } ∧
    connection_closes (handle_drone_command d m u o).response = true := by
  have h := update_telemetry_invalid d u o e hc hv
  refine ⟨?_, ?_⟩ <;> simp only [handle_drone_command, h, connection_closes]

theorem claim_C2_witness :
    handle_drone_command initialDroneState initialServerMetrics
        [(keySpeed, PyVal.pyInt 1), (keyAltitude, PyVal.pyStr revStr),
         (keyMovement, PyVal.pyStr fwdStr)] calmOracle =
      { response := ServerResponse.crashResp
          "Invalid input data: 'altitude' must be an integer, got str"
          0 0 initial_telemetry true
        drone := initialDroneState
        metrics := { initialServerMetrics with commands_sent := 1 }
        storeWrite := none } ∧
    connection_closes
      (handle_drone_command initialDroneState initialServerMetrics
        [(keySpeed, PyVal.pyInt 1), (keyAltitude, PyVal.pyStr revStr),
         (keyMovement, PyVal.pyStr fwdStr)] calmOracle).response = true :=
  claim_C2_amended initialDroneState initialServerMetrics _ calmOracle _ rfl rfl

/-! ## Battery lemmas (claim C5) -/

theorem check_none_battery_pos (t : Telemetry) (h : check_drone_crash t = none) :
    0 < t.battery := by
  unfold check_drone_crash at h
  split_ifs at h with h1 h2 h3 h4 h5 <;> first
    | exact Option.noConfusion h
    | linarith

theorem check_some_battery (t : Telemetry) (msg : String) (tF : Telemetry)
    (h0 : 0 ≤ t.battery) (h : check_drone_crash t = some (msg, tF)) :
    tF.battery = t.battery := by
  unfold check_drone_crash at h
  split_ifs at h with h1 h2 h3 h4 h5 <;> first
    | exact Option.noConfusion h
    | (injection h with hp; injection hp with hm ht; subst ht; rfl)
    | (injection h with hp; injection hp with hm ht; subst ht;
       show (0 : ℚ) = t.battery; linarith)

theorem check_some_batmsg (t : Telemetry) (msg : String) (tF : Telemetry)
    (hbz : t.battery ≤ 0) (h : check_drone_crash t = some (msg, tF)) :
    msg = batteryCrashMsg := by
  unfold check_drone_crash at h
  rw [if_pos hbz] at h
  injection h with hp
  injection hp with hm ht
  exact hm.symm

/-- One step never increases the battery and keeps it nonnegative. -/
theorem battery_step (s : DroneState) (u : CmdDict) (o : StepOracle)
    (h0 : 0 ≤ s.telemetry.battery) :
    0 ≤ (update_telemetry s u o).state.telemetry.battery ∧
    (update_telemetry s u o).state.telemetry.battery ≤ s.telemetry.battery := by
  have hpb : (update_position s.telemetry u).battery = s.telemetry.battery :=
    (update_position_fields s.telemetry u).1
  have hb2 := update_battery_le (update_position s.telemetry u) u o (by rw [hpb]; exact h0)
  rw [hpb] at hb2
  unfold update_telemetry
  cases hcr : s.crashed
  · simp only [Bool.false_eq_true, if_false]
    cases hval : validate_drone_input u
    · cases hsim : simulate_environmental_conditions
          (update_battery (update_position s.telemetry u) u o) (some u) o with
      | error msg => exact hb2
      | ok t3 =>
        dsimp only
        have ht3 := (simulate_ok_fields _ _ _ _ hsim).1
        rcases Option.eq_none_or_eq_some (check_drone_crash t3) with hchk | ⟨p, hchk⟩
        · rw [hchk]
          dsimp only
          rw [ht3]
          exact hb2
        · obtain ⟨msg, tFin⟩ := p
          have hf := check_some_battery t3 msg tFin (by rw [ht3]; exact hb2.1) hchk
          rw [hchk]
          dsimp only
          rw [hf, ht3]
          exact hb2
    · exact ⟨h0, le_refl _⟩
  · rw [if_pos rfl]
    exact ⟨h0, le_refl _⟩

theorem runDrone_battery (s : DroneState) (cmds : List (CmdDict × StepOracle))
    (h0 : 0 ≤ s.telemetry.battery) :
    0 ≤ (runDrone s cmds).telemetry.battery ∧
    (runDrone s cmds).telemetry.battery ≤ s.telemetry.battery := by
  induction cmds generalizing s with
  | nil => exact ⟨h0, le_refl _⟩
  | cons p rest ih =>
    obtain ⟨u, o⟩ := p
    have hstep := battery_step s u o h0
    have hrec := ih (update_telemetry s u o).state hstep.1
    exact ⟨hrec.1, le_trans hrec.2 hstep.2⟩

theorem runDrone_frozen (s : DroneState) (cmds : List (CmdDict × StepOracle))
    (h : s.crashed = true) : runDrone s cmds = s := by
  induction cmds with
  | nil => rfl
  | cons p rest ih =>
    obtain ⟨u, o⟩ := p
    show runDrone (update_telemetry s u o).state rest = s
    rw [update_telemetry_already_crashed s u o h]
    exact ih

theorem battery_zero_crash (s : DroneState) (u : CmdDict) (o : StepOracle)
    (hc : s.crashed = false) (hb : 0 < s.telemetry.battery)
    (hz : (update_telemetry s u o).state.telemetry.battery = 0) :
    ((update_telemetry s u o).result = StepResult.crashed batteryCrashMsg ∨
     (update_telemetry s u o).result = StepResult.crashed tiltCrashMsg) ∧
    (update_telemetry s u o).state.crashed = true := by
  have hpb : (update_position s.telemetry u).battery = s.telemetry.battery :=
    (update_position_fields s.telemetry u).1
  have hb2 := update_battery_le (update_position s.telemetry u) u o (by rw [hpb]; linarith)
  rw [hpb] at hb2
  revert hz
  unfold update_telemetry
  rw [hc]
  simp only [Bool.false_eq_true, if_false]
  cases hval : validate_drone_input u
  · cases hsim : simulate_environmental_conditions
        (update_battery (update_position s.telemetry u) u o) (some u) o with
    | error msg =>
      intro hz
      have := simulate_error_msg _ _ _ _ hsim
      subst this
      exact ⟨Or.inr rfl, rfl⟩
    | ok t3 =>
      dsimp only
      have ht3 := (simulate_ok_fields _ _ _ _ hsim).1
      rcases Option.eq_none_or_eq_some (check_drone_crash t3) with hchk | ⟨p, hchk⟩
      · rw [hchk]
        dsimp only
        intro hz
        have := check_none_battery_pos t3 hchk
        exact absurd hz (by linarith)
      · obtain ⟨msg, tFin⟩ := p
        rw [hchk]
        dsimp only
        intro hz
        have hfb := check_some_battery t3 msg tFin (by rw [ht3]; exact hb2.1) hchk
        have hmsg := check_some_batmsg t3 msg tFin (by rw [← hfb, hz]) hchk
        subst hmsg
        exact ⟨Or.inl rfl, rfl⟩
  · intro hz
    dsimp only at hz
    exact absurd hz (by linarith)

/-! ## Claim C5 — battery monotonicity (corrected) -/

/-- Counterexample to claim C5 as stated: starting from the default
session (battery 100), the single validated command
`{"speed": 0, "altitude": -500, "movement": "fwd"}`, with admissible
random draws, drives the battery to exactly `0` in one step, yet the
reported crash cause is the excessive-tilt crash raised inside the
environment update (the intermediate altitude `-500` makes the
ground-effect base instability `1.1`, so the clamped gyroscope can reach
`(1, 1, 1)` whose squared magnitude `3` exceeds `1.7^2`), not battery
depletion. -/
theorem claim_C5_counterexample :
    initialDroneState.telemetry.battery = 100 ∧
    validate_drone_input (cmdFwd 0 (-500)) = none ∧
    oracleWf tiltOracle (update_position initial_telemetry (cmdFwd 0 (-500))).y_position ∧
    (update_telemetry initialDroneState (cmdFwd 0 (-500)) tiltOracle).state.telemetry.battery
      = 0 ∧
    (update_telemetry initialDroneState (cmdFwd 0 (-500)) tiltOracle).result =
      StepResult.crashed tiltCrashMsg ∧
    tiltCrashMsg ≠ batteryCrashMsg := by
  have hy : (update_position initial_telemetry (cmdFwd 0 (-500))).y_position = -500 := by
    norm_num [update_position, initial_telemetry, getIntD_cmdFwd_speed,
      getIntD_cmdFwd_altitude, lookupKey_cmdFwd_movement]
  have h2 : update_battery (update_position initial_telemetry (cmdFwd 0 (-500)))
      (cmdFwd 0 (-500)) tiltOracle =
      { x_position := 0, y_position := -500, battery := 0, gyroscope := (0, 0, 0),
        wind_speed := 0, dust_level := 0, sensor_status := SensorStatus.GREEN } := by
    norm_num [update_battery, update_position, drain_amount, getIntD_cmdFwd_speed,
      getIntD_cmdFwd_altitude, lookupKey_cmdFwd_movement, initial_telemetry, tiltOracle]
  have hg : calculate_gyroscope_values
      { x_position := 0, y_position := -500, battery := 0, gyroscope := ((0 : ℚ), (0 : ℚ), (0 : ℚ)),
        wind_speed := 0, dust_level := 0, sensor_status := SensorStatus.GREEN }
      (cmdFwd 0 (-500)) tiltOracle = (1, 1, 1) := by
    norm_num [calculate_gyroscope_values, final_gyro, movement_effect_x, movement_effect_y,
      movement_effect_magnitude, movement_tilt_degrees, wind_effect_gyro,
      getValD_cmdFwd_movement, getIntD_cmdFwd_speed, tiltOracle,
      DEGREES_TO_GYRO, MAX_WIND_TILT_DEGREES, CRITICAL_TILT_DEGREES]
  have h3 := simulate_env_tilt _ _ tiltOracle _ (cmdFwd_isEmpty 0 (-500)) hg
    (by norm_num [gyroMagSq])
  have hstep := update_telemetry_env_error initialDroneState (cmdFwd 0 (-500)) tiltOracle _
    tiltCrashMsg rfl (validate_cmdFwd 0 (-500) (by norm_num) (by norm_num)) h2 h3
  refine ⟨rfl, validate_cmdFwd 0 (-500) (by norm_num) (by norm_num), ?_, ?_, ?_, by decide⟩
  · rw [hy]
    norm_num [oracleWf, tiltOracle, base_instability, altitude_stability_factor]
  · rw [hstep]
  · rw [hstep]

/-- Claim C5 as amended: over any command sequence the battery stays in
`[0, 100]` and is non-increasing; a step that takes a positive battery to
`0` reports a terminal crash — with cause battery depletion unless the
environment update already raised the excessive-tilt crash in that same
step — and once crashed the session state is frozen (no mutation by any
further commands). -/
theorem claim_C5_amended :
    (∀ (s : DroneState) (cmds : List (CmdDict × StepOracle)),
      0 ≤ s.telemetry.battery → s.telemetry.battery ≤ 100 →
      0 ≤ (runDrone s cmds).telemetry.battery ∧
      (runDrone s cmds).telemetry.battery ≤ s.telemetry.battery ∧
      (runDrone s cmds).telemetry.battery ≤ 100) ∧
    (∀ (s : DroneState) (u : CmdDict) (o : StepOracle),
      s.crashed = false → 0 < s.telemetry.battery →
      (update_telemetry s u o).state.telemetry.battery = 0 →
      ((update_telemetry s u o).result = StepResult.crashed batteryCrashMsg ∨
       (update_telemetry s u o).result = StepResult.crashed tiltCrashMsg) ∧
      (update_telemetry s u o).state.crashed = true) ∧
    (∀ (s : DroneState) (cmds : List (CmdDict × StepOracle)),
      s.crashed = true → runDrone s cmds = s) := by
  refine ⟨fun s cmds h0 h100 => ?_, battery_zero_crash, runDrone_frozen⟩
  have h := runDrone_battery s cmds h0
  exact ⟨h.1, h.2, le_trans h.2 h100⟩

theorem claim_C5_witness :
    0 ≤ (runDrone initialDroneState [(cmdFwd 1 1, calmOracle)]).telemetry.battery ∧
    (runDrone initialDroneState [(cmdFwd 1 1, calmOracle)]).telemetry.battery ≤ 100 ∧
    runDrone crashedDrone [(cmdFwd 1 1, calmOracle)] = crashedDrone := by
  have h := claim_C5_amended
  refine ⟨(h.1 initialDroneState _ (by norm_num [initialDroneState, initial_telemetry])
      (by norm_num [initialDroneState, initial_telemetry])).1, ?_, h.2.2 crashedDrone _ rfl⟩
  have h2 := (h.1 initialDroneState [(cmdFwd 1 1, calmOracle)]
    (by norm_num [initialDroneState, initial_telemetry])
    (by norm_num [initialDroneState, initial_telemetry])).2.2
  exact h2

/-! ## Gyroscope bounds (claims C8, C9, C4) -/

/-- A validated command's movement-induced tilt is at most `20` degrees:
`(speed / 5) * 20` with `speed ∈ [0, 5]`. -/
theorem movement_tilt_le (u : CmdDict) (hv : validate_drone_input u = none) :
    movement_tilt_degrees u ≤ 20 := by
  obtain ⟨⟨n, hs, h0, h5⟩, _, hm⟩ := validate_ok_parts u hv
  have hn0 : (0 : ℚ) ≤ (n : ℚ) := by exact_mod_cast h0
  have hn5 : ((n : ℤ) : ℚ) ≤ 5 := by exact_mod_cast h5
  have hgi : getIntD u keySpeed 0 = n := by rw [getIntD, hs]
  unfold movement_tilt_degrees movement_effect_x movement_effect_magnitude DEGREES_TO_GYRO
  rw [hgi]
  have hmd : getValD u keyMovement (PyVal.pyStr fwdStr) = PyVal.pyStr fwdStr ∨
      getValD u keyMovement (PyVal.pyStr fwdStr) = PyVal.pyStr revStr := by
    rcases hm with h | h
    · left
      rw [getValD, h]
      rfl
    · right
      rw [getValD, h]
      rfl
  have habs : |(n : ℚ) / 5 * 20 * (1 / 90)| = (n : ℚ) / 5 * 20 * (1 / 90) :=
    abs_of_nonneg (by nlinarith)
  rcases hmd with h | h <;> dsimp only <;> rw [h]
  · rw [if_pos rfl, habs, div_le_iff (by norm_num : (0 : ℚ) < 1 / 90)]
    nlinarith
  · rw [if_neg (by simp [fwdStr, revStr]), if_pos rfl, abs_neg, habs,
      div_le_iff (by norm_num : (0 : ℚ) < 1 / 90)]
    nlinarith

/-- For a validated command the 45-degree saturation branch is never
taken: `calculate_gyroscope_values` returns the clamped values. -/
theorem calc_no_saturation (t : Telemetry) (u : CmdDict) (o : StepOracle)
    (hv : validate_drone_input u = none) :
    calculate_gyroscope_values t u o = final_gyro t u o := by
  have h20 := movement_tilt_le u hv
  unfold calculate_gyroscope_values
  dsimp only
  rw [if_neg]
  simp only [CRITICAL_TILT_DEGREES]
  intro hlt
  linarith

/-- `|movement_effect_x| ≤ 2/9` for validated input. -/
theorem movement_effect_x_le (u : CmdDict) (hv : validate_drone_input u = none) :
    |movement_effect_x u| ≤ 2 / 9 := by
  have h20 := movement_tilt_le u hv
  unfold movement_tilt_degrees DEGREES_TO_GYRO at h20
  rw [div_le_iff (by norm_num : (0 : ℚ) < 1 / 90)] at h20
  linarith

/-- With nonnegative altitude, in-range wind and well-formed draws, the
clamped gyroscope's squared magnitude stays at most `1` (hence the
Euclidean magnitude never exceeds `1`, comfortably below the `1.7` crash
threshold). -/
theorem final_gyro_magSq_le (t : Telemetry) (u : CmdDict) (o : StepOracle)
    (hv : validate_drone_input u = none)
    (hy : 0 ≤ t.y_position)
    (hw0 : 0 ≤ t.wind_speed) (hw1 : t.wind_speed ≤ 100)
    (hwf : oracleWf o t.y_position) :
    gyroMagSq (final_gyro t u o) ≤ 1 := by
  unfold oracleWf at hwf
  obtain ⟨-, -, -, -, -, -, hcs, hbx, hby, hbz, -, -, -⟩ := hwf
  have hbi : base_instability t.y_position ≤ 0.1 := by
    have h0m : 0 ≤ min (1 : ℚ) (t.y_position / 50) :=
      le_min (by norm_num) (div_nonneg hy (by norm_num))
    unfold base_instability altitude_stability_factor
    linarith
  have hbx1 : |o.baseGyroX| ≤ 0.1 := le_trans hbx hbi
  have hby1 : |o.baseGyroY| ≤ 0.1 := le_trans hby hbi
  have hbz1 : |o.baseGyroZ| ≤ 0.1 := le_trans hbz hbi
  have hcos : |o.windDirCos| ≤ 1 := by
    nlinarith [sq_abs o.windDirCos, sq_nonneg o.windDirSin, abs_nonneg o.windDirCos]
  have hsin : |o.windDirSin| ≤ 1 := by
    nlinarith [sq_abs o.windDirSin, sq_nonneg o.windDirCos, abs_nonneg o.windDirSin]
  have hweg0 : 0 ≤ wind_effect_gyro t.wind_speed := by
    unfold wind_effect_gyro MAX_WIND_TILT_DEGREES DEGREES_TO_GYRO
    nlinarith
  have hweg1 : wind_effect_gyro t.wind_speed ≤ 4 / 9 := by
    unfold wind_effect_gyro MAX_WIND_TILT_DEGREES DEGREES_TO_GYRO
    nlinarith
  have hwx : |wind_effect_gyro t.wind_speed * o.windDirCos| ≤ 4 / 9 := by
    rw [abs_mul, abs_of_nonneg hweg0]
    calc wind_effect_gyro t.wind_speed * |o.windDirCos| ≤ (4 / 9) * 1 :=
          mul_le_mul hweg1 hcos (abs_nonneg _) (by norm_num)
      _ = 4 / 9 := by norm_num
  have hwy : |wind_effect_gyro t.wind_speed * o.windDirSin| ≤ 4 / 9 := by
    rw [abs_mul, abs_of_nonneg hweg0]
    calc wind_effect_gyro t.wind_speed * |o.windDirSin| ≤ (4 / 9) * 1 :=
          mul_le_mul hweg1 hsin (abs_nonneg _) (by norm_num)
      _ = 4 / 9 := by norm_num
  have hmx := movement_effect_x_le u hv
  unfold final_gyro gyroMagSq
  dsimp only
  have hfx : |max (-1) (min 1 (o.baseGyroX + wind_effect_gyro t.wind_speed * o.windDirCos +
      movement_effect_x u))| ≤ 23 / 30 := by
    refine clamp_abs_le _ _ ?_ (by norm_num)
    calc |o.baseGyroX + wind_effect_gyro t.wind_speed * o.windDirCos + movement_effect_x u|
        ≤ |o.baseGyroX + wind_effect_gyro t.wind_speed * o.windDirCos| + |movement_effect_x u| :=
          abs_add _ _
      _ ≤ |o.baseGyroX| + |wind_effect_gyro t.wind_speed * o.windDirCos| +
            |movement_effect_x u| := by
          linarith [abs_add o.baseGyroX (wind_effect_gyro t.wind_speed * o.windDirCos)]
      _ ≤ 23 / 30 := by linarith
  have hfy : |max (-1) (min 1 (o.baseGyroY + wind_effect_gyro t.wind_speed * o.windDirSin +
      movement_effect_y u))| ≤ 49 / 90 := by
    refine clamp_abs_le _ _ ?_ (by norm_num)
    rw [movement_effect_y, add_zero]
    calc |o.baseGyroY + wind_effect_gyro t.wind_speed * o.windDirSin|
        ≤ |o.baseGyroY| + |wind_effect_gyro t.wind_speed * o.windDirSin| := abs_add _ _
      _ ≤ 49 / 90 := by linarith
  have hfz : |max (-1) (min 1 o.baseGyroZ)| ≤ 1 / 10 := by
    refine clamp_abs_le _ _ ?_ (by norm_num)
    linarith
  rw [abs_le] at hfx hfy hfz
  nlinarith [hfx.1, hfx.2, hfy.1, hfy.2, hfz.1, hfz.2]

/-! ## Claim C8 — environment invariants -/

/-- Claim C8: after every non-crashing environment update with admissible
random draws, `wind_speed` and `dust_level` lie in `[0, 100]`, every
gyroscope axis lies in `[-1, 1]`, and the new sensor status is the pure
threshold classification of the new dust and wind (RED above 90, YELLOW
above 60, GREEN otherwise). -/
theorem claim_C8_env_ranges (t : Telemetry) (u : Option CmdDict) (o : StepOracle)
    (t' : Telemetry)
    (hwf : oracleWf o t.y_position)
    (h : simulate_environmental_conditions t u o = Except.ok t') :
    (0 ≤ t'.wind_speed ∧ t'.wind_speed ≤ 100) ∧
    (0 ≤ t'.dust_level ∧ t'.dust_level ≤ 100) ∧
    (-1 ≤ t'.gyroscope.1 ∧ t'.gyroscope.1 ≤ 1) ∧
    (-1 ≤ t'.gyroscope.2.1 ∧ t'.gyroscope.2.1 ≤ 1) ∧
    (-1 ≤ t'.gyroscope.2.2 ∧ t'.gyroscope.2.2 ≤ 1) ∧
    t'.sensor_status = sensorFrom t'.dust_level t'.wind_speed := by
  obtain ⟨_, hx, hy, hw, hd, hs⟩ := simulate_ok_fields t u o t' h
  have hsev : 0 ≤ o.stormSeverity := le_trans (by norm_num) hwf.2.2.2.2.1
  obtain ⟨hi1, hi2, hi3⟩ := hwf.2.2.2.2.2.2.2.2.2.2
  refine ⟨?_, ?_, ?_, ?_, ?_, ?_⟩
  · rw [hw]
    exact newWind_range t o hsev
  · rw [hd]
    exact newDust_range t o hsev
  · rcases simulate_ok_gyro t u o t' h with ⟨c, _, hg⟩ | hg
    · rw [hg]
      exact (calc_gyro_range t c o).1
    · rw [hg]
      exact abs_le.mp (le_trans hi1 (by norm_num))
  · rcases simulate_ok_gyro t u o t' h with ⟨c, _, hg⟩ | hg
    · rw [hg]
      exact (calc_gyro_range t c o).2.1
    · rw [hg]
      exact abs_le.mp (le_trans hi2 (by norm_num))
  · rcases simulate_ok_gyro t u o t' h with ⟨c, _, hg⟩ | hg
    · rw [hg]
      exact (calc_gyro_range t c o).2.2
    · rw [hg]
      exact abs_le.mp (le_trans hi3 (by norm_num))
  · rw [hs, hd, hw]

theorem claim_C8_witness :
    oracleWf calmOracle initial_telemetry.y_position ∧
    simulate_environmental_conditions initial_telemetry (some (cmdFwd 1 1)) calmOracle =
      Except.ok { initial_telemetry with gyroscope := (2 / 45, 0, 0) } ∧
    (-1 ≤ (2 / 45 : ℚ) ∧ (2 / 45 : ℚ) ≤ 1) := by
  have hwf : oracleWf calmOracle initial_telemetry.y_position := by
    norm_num [oracleWf, calmOracle, initial_telemetry, base_instability,
      altitude_stability_factor]
  have hg : calculate_gyroscope_values initial_telemetry (cmdFwd 1 1) calmOracle =
      (2 / 45, 0, 0) := by
    norm_num [calculate_gyroscope_values, final_gyro, movement_effect_x, movement_effect_y,
      movement_effect_magnitude, movement_tilt_degrees, wind_effect_gyro,
      getValD_cmdFwd_movement, getIntD_cmdFwd_speed, initial_telemetry, calmOracle,
      DEGREES_TO_GYRO, MAX_WIND_TILT_DEGREES, CRITICAL_TILT_DEGREES]
    rw [abs_of_nonneg (by norm_num : (0 : ℚ) ≤ 2 / 45)]
    norm_num
  have h := simulate_env_ok initial_telemetry (cmdFwd 1 1) calmOracle _
    (cmdFwd_isEmpty 1 1) hg (by norm_num [gyroMagSq])
  have hok : simulate_environmental_conditions initial_telemetry (some (cmdFwd 1 1))
      calmOracle = Except.ok { initial_telemetry with gyroscope := (2 / 45, 0, 0) } := by
    rw [h]
    norm_num [newWind, newDust, sensorFrom, initial_telemetry, calmOracle]
  have hc8 := claim_C8_env_ranges initial_telemetry (some (cmdFwd 1 1)) calmOracle
    { initial_telemetry with gyroscope := (2 / 45, 0, 0) } hwf hok
  exact ⟨hwf, hok, hc8.2.2.1⟩

/-! ## Claim C9 — movement tilt safety (corrected) -/

/-- Counterexample to claim C9 as stated: the "excessive tilt and loss of
stability" crash is reachable for validated input.  The validated command
`{"speed": 0, "altitude": -500, "movement": "fwd"}` applied to the default
session makes the intermediate altitude `-500`, so the ground-effect base
instability grows to `1.1`, admissible base draws of `1` per axis survive
the clamp as `(1, 1, 1)`, and the squared magnitude `3` exceeds `1.7^2` —
the environment update raises exactly that crash.  (The saturated-flag
part of the claim is correct: the movement tilt here is `0°`.) -/
theorem claim_C9_counterexample :
    validate_drone_input (cmdFwd 0 (-500)) = none ∧
    oracleWf tiltOracle (update_position initial_telemetry (cmdFwd 0 (-500))).y_position ∧
    (update_telemetry initialDroneState (cmdFwd 0 (-500)) tiltOracle).result =
      StepResult.crashed tiltCrashMsg := by
  have hy : (update_position initial_telemetry (cmdFwd 0 (-500))).y_position = -500 := by
    norm_num [update_position, initial_telemetry, getIntD_cmdFwd_speed,
      getIntD_cmdFwd_altitude, lookupKey_cmdFwd_movement]
  have h2 : update_battery (update_position initial_telemetry (cmdFwd 0 (-500)))
      (cmdFwd 0 (-500)) tiltOracle =
      { x_position := 0, y_position := -500, battery := 0, gyroscope := (0, 0, 0),
        wind_speed := 0, dust_level := 0, sensor_status := SensorStatus.GREEN } := by
    norm_num [update_battery, update_position, drain_amount, getIntD_cmdFwd_speed,
      getIntD_cmdFwd_altitude, lookupKey_cmdFwd_movement, initial_telemetry, tiltOracle]
  have hg : calculate_gyroscope_values
      { x_position := 0, y_position := -500, battery := 0, gyroscope := ((0 : ℚ), (0 : ℚ), (0 : ℚ)),
        wind_speed := 0, dust_level := 0, sensor_status := SensorStatus.GREEN }
      (cmdFwd 0 (-500)) tiltOracle = (1, 1, 1) := by
    norm_num [calculate_gyroscope_values, final_gyro, movement_effect_x, movement_effect_y,
      movement_effect_magnitude, movement_tilt_degrees, wind_effect_gyro,
      getValD_cmdFwd_movement, getIntD_cmdFwd_speed, tiltOracle,
      DEGREES_TO_GYRO, MAX_WIND_TILT_DEGREES, CRITICAL_TILT_DEGREES]
  have h3 := simulate_env_tilt _ _ tiltOracle _ (cmdFwd_isEmpty 0 (-500)) hg
    (by norm_num [gyroMagSq])
  have hstep := update_telemetry_env_error initialDroneState (cmdFwd 0 (-500)) tiltOracle _
    tiltCrashMsg rfl (validate_cmdFwd 0 (-500) (by norm_num) (by norm_num)) h2 h3
  refine ⟨validate_cmdFwd 0 (-500) (by norm_num) (by norm_num), ?_, ?_⟩
  · rw [hy]
    norm_num [oracleWf, tiltOracle, base_instability, altitude_stability_factor]
  · rw [hstep]

/-- Claim C9 as amended: for every validated command the movement-induced
tilt is at most 20 degrees — strictly below the 45-degree critical
threshold — so the saturated-gyroscope flag value is never returned; and
provided the altitude at environment-update time is nonnegative (and the
wind invariant holds), the combined gyroscope magnitude stays at most `1`
(below `1.7`), so the excessive-tilt crash cannot fire.  With a
sufficiently negative intermediate altitude the crash is reachable (see
the counterexample). -/
theorem claim_C9_amended (t : Telemetry) (u : CmdDict) (o : StepOracle)
    (hv : validate_drone_input u = none)
    (hy : 0 ≤ t.y_position)
    (hw0 : 0 ≤ t.wind_speed) (hw1 : t.wind_speed ≤ 100)
    (hwf : oracleWf o t.y_position) :
    movement_tilt_degrees u ≤ 20 ∧
    calculate_gyroscope_values t u o = final_gyro t u o ∧
    gyroMagSq (calculate_gyroscope_values t u o) ≤ 1 ∧
    ∃ t', simulate_environmental_conditions t (some u) o = Except.ok t' := by
  have h20 := movement_tilt_le u hv
  have hns := calc_no_saturation t u o hv
  have hmag := final_gyro_magSq_le t u o hv hy hw0 hw1 hwf
  refine ⟨h20, hns, by rw [hns]; exact hmag, ?_⟩
  exact ⟨_, simulate_env_ok t u o (final_gyro t u o) (validate_ok_isEmpty u hv) hns
    (by intro hlt; nlinarith)⟩

theorem claim_C9_witness :
    movement_tilt_degrees (cmdFwd 1 1) ≤ 20 ∧
    calculate_gyroscope_values initial_telemetry (cmdFwd 1 1) calmOracle =
      final_gyro initial_telemetry (cmdFwd 1 1) calmOracle ∧
    gyroMagSq (calculate_gyroscope_values initial_telemetry (cmdFwd 1 1) calmOracle) ≤ 1 ∧
    ∃ t', simulate_environmental_conditions initial_telemetry (some (cmdFwd 1 1)) calmOracle =
      Except.ok t' :=
  claim_C9_amended initial_telemetry (cmdFwd 1 1) calmOracle
    (validate_cmdFwd 1 1 (by norm_num) (by norm_num))
    (by norm_num [initial_telemetry])
    (by norm_num [initial_telemetry])
    (by norm_num [initial_telemetry])
    (by norm_num [oracleWf, calmOracle, initial_telemetry, base_instability,
      altitude_stability_factor])

/-! ## Claim C4 — valid-command success (corrected) -/

theorem check_none_of_safe (t : Telemetry) (hb : 0 < t.battery) (hy : 0 ≤ t.y_position)
    (hx : |t.x_position| ≤ 100000)
    (hr : ¬ (t.sensor_status = SensorStatus.RED ∧ 3 < t.y_position))
    (hyel : ¬ (t.sensor_status = SensorStatus.YELLOW ∧ 1000 < t.y_position)) :
    check_drone_crash t = none := by
  unfold check_drone_crash
  rw [if_neg (by linarith), if_neg (by linarith), if_neg (by linarith), if_neg hr,
    if_neg hyel]

/-- Counterexample to claim C4 as stated: the default session satisfies
every stated precondition (battery `100 > 0`, `y = 0 ≥ 0`, `|x| = 0 ≤
100000`, GREEN status permits any altitude), the command
`{"speed": 0, "altitude": -5, "movement": "fwd"}` is valid and the draws
are admissible, yet `apply` does not return success: the step itself takes
the altitude below zero and crashes with "negative altitude". -/
theorem claim_C4_counterexample :
    0 < initialDroneState.telemetry.battery ∧
    0 ≤ initialDroneState.telemetry.y_position ∧
    |initialDroneState.telemetry.x_position| ≤ 100000 ∧
    initialDroneState.telemetry.sensor_status = SensorStatus.GREEN ∧
    validate_drone_input (cmdFwd 0 (-5)) = none ∧
    oracleWf negAltOracle (update_position initial_telemetry (cmdFwd 0 (-5))).y_position ∧
    (update_telemetry initialDroneState (cmdFwd 0 (-5)) negAltOracle).result =
      StepResult.crashed negativeAltitudeMsg := by
  have hy : (update_position initial_telemetry (cmdFwd 0 (-5))).y_position = -5 := by
    norm_num [update_position, initial_telemetry, getIntD_cmdFwd_speed,
      getIntD_cmdFwd_altitude, lookupKey_cmdFwd_movement]
  have h2 : update_battery (update_position initial_telemetry (cmdFwd 0 (-5)))
      (cmdFwd 0 (-5)) negAltOracle =
      { x_position := 0, y_position := -5, battery := 99.9, gyroscope := (0, 0, 0),
        wind_speed := 0, dust_level := 0, sensor_status := SensorStatus.GREEN } := by
    norm_num [update_battery, update_position, drain_amount, getIntD_cmdFwd_speed,
      getIntD_cmdFwd_altitude, lookupKey_cmdFwd_movement, initial_telemetry, negAltOracle]
  have hg : calculate_gyroscope_values
      { x_position := 0, y_position := -5, battery := (99.9 : ℚ), gyroscope := ((0 : ℚ), (0 : ℚ), (0 : ℚ)),
        wind_speed := 0, dust_level := 0, sensor_status := SensorStatus.GREEN }
      (cmdFwd 0 (-5)) negAltOracle = (0, 0, 0) := by
    norm_num [calculate_gyroscope_values, final_gyro, movement_effect_x, movement_effect_y,
      movement_effect_magnitude, movement_tilt_degrees, wind_effect_gyro,
      getValD_cmdFwd_movement, getIntD_cmdFwd_speed, negAltOracle,
      DEGREES_TO_GYRO, MAX_WIND_TILT_DEGREES, CRITICAL_TILT_DEGREES]
  have h3pre := simulate_env_ok _ _ negAltOracle _ (cmdFwd_isEmpty 0 (-5)) hg
    (by norm_num [gyroMagSq])
  have h3 : simulate_environmental_conditions
      { x_position := 0, y_position := -5, battery := (99.9 : ℚ), gyroscope := ((0 : ℚ), (0 : ℚ), (0 : ℚ)),
        wind_speed := 0, dust_level := 0, sensor_status := SensorStatus.GREEN }
      (some (cmdFwd 0 (-5))) negAltOracle =
      Except.ok
        { x_position := 0, y_position := -5, battery := (99.9 : ℚ),
          gyroscope := ((0 : ℚ), (0 : ℚ), (0 : ℚ)), wind_speed := 0, dust_level := 0,
          sensor_status := SensorStatus.GREEN } := by
    rw [h3pre]
    norm_num [newWind, newDust, sensorFrom, negAltOracle, Except.ok.injEq,
      Telemetry.mk.injEq]
  have h4 : check_drone_crash
      { x_position := 0, y_position := -5, battery := (99.9 : ℚ),
        gyroscope := ((0 : ℚ), (0 : ℚ), (0 : ℚ)), wind_speed := 0, dust_level := 0,
        sensor_status := SensorStatus.GREEN } =
      some (negativeAltitudeMsg,
        { x_position := 0, y_position := 0, battery := (99.9 : ℚ),
          gyroscope := ((0 : ℚ), (0 : ℚ), (0 : ℚ)), wind_speed := 0, dust_level := 0,
          sensor_status := SensorStatus.GREEN }) := by
    norm_num [check_drone_crash]
  have hstep := update_telemetry_check_crash initialDroneState (cmdFwd 0 (-5)) negAltOracle
    _ _ _ negativeAltitudeMsg rfl (validate_cmdFwd 0 (-5) (by norm_num) (by norm_num)) h2 h3 h4
  refine ⟨by norm_num [initialDroneState, initial_telemetry],
    by norm_num [initialDroneState, initial_telemetry],
    by norm_num [initialDroneState, initial_telemetry],
    rfl,
    validate_cmdFwd 0 (-5) (by norm_num) (by norm_num), ?_, ?_⟩
  · rw [hy]
    norm_num [oracleWf, negAltOracle, base_instability, altitude_stability_factor]
  · rw [hstep]

set_option maxHeartbeats 1000000 in
/-- Claim C4 as amended: the success guarantee holds when the crash-free
conditions are read on the *post-update* values rather than the pre-state:
for every valid command on a live session, if after the position and
battery updates the battery is still positive, the new altitude is
nonnegative, `|x| ≤ 100000`, and the freshly derived sensor status permits
the new altitude, then `apply` returns success and the resulting wind,
dust, gyroscope and sensor status are within their clamped ranges. -/
theorem claim_C4_amended (s : DroneState) (u : CmdDict) (o : StepOracle)
    (hc : s.crashed = false)
    (hv : validate_drone_input u = none)
    (hwf : oracleWf o (update_position s.telemetry u).y_position)
    (hw0 : 0 ≤ s.telemetry.wind_speed) (hw1 : s.telemetry.wind_speed ≤ 100)
    (hy : 0 ≤ (update_position s.telemetry u).y_position)
    (hb : 0 < (update_battery (update_position s.telemetry u) u o).battery)
    (hx : |(update_position s.telemetry u).x_position| ≤ 100000)
    (hr : ¬ (sensorFrom (newDust (update_battery (update_position s.telemetry u) u o) o)
               (newWind (update_battery (update_position s.telemetry u) u o) o) =
             SensorStatus.RED ∧ 3 < (update_position s.telemetry u).y_position))
    (hyel : ¬ (sensorFrom (newDust (update_battery (update_position s.telemetry u) u o) o)
                 (newWind (update_battery (update_position s.telemetry u) u o) o) =
               SensorStatus.YELLOW ∧ 1000 < (update_position s.telemetry u).y_position)) :
    ∃ t3, (update_telemetry s u o).result = StepResult.success t3 ∧
      (0 ≤ t3.wind_speed ∧ t3.wind_speed ≤ 100) ∧
      (0 ≤ t3.dust_level ∧ t3.dust_level ≤ 100) ∧
      (-1 ≤ t3.gyroscope.1 ∧ t3.gyroscope.1 ≤ 1) ∧
      (-1 ≤ t3.gyroscope.2.1 ∧ t3.gyroscope.2.1 ≤ 1) ∧
      (-1 ≤ t3.gyroscope.2.2 ∧ t3.gyroscope.2.2 ≤ 1) ∧
      t3.sensor_status = sensorFrom t3.dust_level t3.wind_speed := by
  obtain ⟨hpbat, hpw, hpd, hps⟩ := update_position_fields s.telemetry u
  obtain ⟨hbx, hby, hbw, hbd, hbs⟩ :=
    update_battery_fields (update_position s.telemetry u) u o
  have hy2 : 0 ≤ (update_battery (update_position s.telemetry u) u o).y_position := by
    rw [hby]; exact hy
  have hw20 : 0 ≤ (update_battery (update_position s.telemetry u) u o).wind_speed := by
    rw [hbw, hpw]; exact hw0
  have hw21 : (update_battery (update_position s.telemetry u) u o).wind_speed ≤ 100 := by
    rw [hbw, hpw]; exact hw1
  have hwf2 : oracleWf o (update_battery (update_position s.telemetry u) u o).y_position := by
    rw [hby]; exact hwf
  have hns := calc_no_saturation (update_battery (update_position s.telemetry u) u o) u o hv
  have hmag := final_gyro_magSq_le (update_battery (update_position s.telemetry u) u o) u o
    hv hy2 hw20 hw21 hwf2
  have h3 := simulate_env_ok (update_battery (update_position s.telemetry u) u o) u o _
    (validate_ok_isEmpty u hv) hns (by intro hlt; nlinarith)
  have hsev : 0 ≤ o.stormSeverity := by
    unfold oracleWf at hwf
    linarith [hwf.2.2.2.2.1]
  have hwr := newWind_range (update_battery (update_position s.telemetry u) u o) o hsev
  have hdr := newDust_range (update_battery (update_position s.telemetry u) u o) o hsev
  have h4 : check_drone_crash
      { update_battery (update_position s.telemetry u) u o with
        wind_speed := newWind (update_battery (update_position s.telemetry u) u o) o
        dust_level := newDust (update_battery (update_position s.telemetry u) u o) o
        gyroscope := final_gyro (update_battery (update_position s.telemetry u) u o) u o
        sensor_status :=
          sensorFrom (newDust (update_battery (update_position s.telemetry u) u o) o)
            (newWind (update_battery (update_position s.telemetry u) u o) o) } = none := by
    refine check_none_of_safe _ ?_ ?_ ?_ ?_ ?_
    · show 0 < (update_battery (update_position s.telemetry u) u o).battery
      exact hb
    · show 0 ≤ (update_battery (update_position s.telemetry u) u o).y_position
      exact hy2
    · show |(update_battery (update_position s.telemetry u) u o).x_position| ≤ 100000
      rw [hbx]
      exact hx
    · show ¬ (sensorFrom _ _ = SensorStatus.RED ∧
        3 < (update_battery (update_position s.telemetry u) u o).y_position)
      rw [hby]
      exact hr
    · show ¬ (sensorFrom _ _ = SensorStatus.YELLOW ∧
        1000 < (update_battery (update_position s.telemetry u) u o).y_position)
      rw [hby]
      exact hyel
  have hstep := update_telemetry_success s u o _ _ hc hv rfl h3 h4
  refine ⟨_, by rw [hstep], hwr, hdr, ?_, ?_, ?_, rfl⟩
  · have := clamp_range (o.baseGyroX +
      wind_effect_gyro (update_battery (update_position s.telemetry u) u o).wind_speed *
        o.windDirCos + movement_effect_x u)
    exact this
  · exact clamp_range _
  · exact clamp_range _

theorem claim_C4_witness :
    ∃ t3, (update_telemetry initialDroneState (cmdFwd 1 1) calmOracle).result =
        StepResult.success t3 ∧
      (0 ≤ t3.wind_speed ∧ t3.wind_speed ≤ 100) ∧
      (0 ≤ t3.dust_level ∧ t3.dust_level ≤ 100) ∧
      (-1 ≤ t3.gyroscope.1 ∧ t3.gyroscope.1 ≤ 1) ∧
      (-1 ≤ t3.gyroscope.2.1 ∧ t3.gyroscope.2.1 ≤ 1) ∧
      (-1 ≤ t3.gyroscope.2.2 ∧ t3.gyroscope.2.2 ≤ 1) ∧
      t3.sensor_status = sensorFrom t3.dust_level t3.wind_speed :=
  claim_C4_amended initialDroneState (cmdFwd 1 1) calmOracle rfl
    (validate_cmdFwd 1 1 (by norm_num) (by norm_num))
    (by norm_num [update_position, initial_telemetry, initialDroneState,
      getIntD_cmdFwd_speed, getIntD_cmdFwd_altitude, lookupKey_cmdFwd_movement,
      oracleWf, calmOracle, base_instability, altitude_stability_factor])
    (by norm_num [initialDroneState, initial_telemetry])
    (by norm_num [initialDroneState, initial_telemetry])
    (by norm_num [update_position, initial_telemetry, initialDroneState,
      getIntD_cmdFwd_speed, getIntD_cmdFwd_altitude, lookupKey_cmdFwd_movement])
    (by norm_num [update_battery, update_position, drain_amount, initial_telemetry,
      initialDroneState, getIntD_cmdFwd_speed, getIntD_cmdFwd_altitude,
      lookupKey_cmdFwd_movement, calmOracle])
    (by norm_num [update_position, initial_telemetry, initialDroneState,
      getIntD_cmdFwd_speed, getIntD_cmdFwd_altitude, lookupKey_cmdFwd_movement])
    (by norm_num [sensorFrom, newDust, newWind, update_battery, update_position,
      drain_amount, initial_telemetry, initialDroneState, getIntD_cmdFwd_speed,
      getIntD_cmdFwd_altitude, lookupKey_cmdFwd_movement, calmOracle])
    (by norm_num [sensorFrom, newDust, newWind, update_battery, update_position,
      drain_amount, initial_telemetry, initialDroneState, getIntD_cmdFwd_speed,
      getIntD_cmdFwd_altitude, lookupKey_cmdFwd_movement, calmOracle])

theorem claim_C1_witness :
    (update_telemetry initialDroneState (cmdFwd 1 1) calmOracle).result =
      StepResult.success
        { x_position := 1, y_position := 1, battery := 99.091, gyroscope := (2 / 45, 0, 0),
          wind_speed := 0, dust_level := 0, sensor_status := SensorStatus.GREEN } ∧
    (handle_drone_command initialDroneState initialServerMetrics (cmdFwd 1 1)
        calmOracle).metrics.iterations = initialServerMetrics.iterations + 1 := by
  have h2 : update_battery (update_position initial_telemetry (cmdFwd 1 1)) (cmdFwd 1 1)
      calmOracle =
      { x_position := 1, y_position := 1, battery := 99.091, gyroscope := (0, 0, 0),
        wind_speed := 0, dust_level := 0, sensor_status := SensorStatus.GREEN } := by
    norm_num [update_battery, update_position, drain_amount, getIntD_cmdFwd_speed,
      getIntD_cmdFwd_altitude, lookupKey_cmdFwd_movement, initial_telemetry, calmOracle]
  have hg : calculate_gyroscope_values
      { x_position := 1, y_position := 1, battery := (99.091 : ℚ),
        gyroscope := ((0 : ℚ), (0 : ℚ), (0 : ℚ)), wind_speed := 0, dust_level := 0,
        sensor_status := SensorStatus.GREEN } (cmdFwd 1 1) calmOracle = (2 / 45, 0, 0) := by
    norm_num [calculate_gyroscope_values, final_gyro, movement_effect_x, movement_effect_y,
      movement_effect_magnitude, movement_tilt_degrees, wind_effect_gyro,
      getValD_cmdFwd_movement, getIntD_cmdFwd_speed, calmOracle,
      DEGREES_TO_GYRO, MAX_WIND_TILT_DEGREES, CRITICAL_TILT_DEGREES]
    rw [abs_of_nonneg (by norm_num : (0 : ℚ) ≤ 2 / 45)]
    norm_num
  have h3pre := simulate_env_ok _ _ calmOracle _ (cmdFwd_isEmpty 1 1) hg
    (by norm_num [gyroMagSq])
  have h3 : simulate_environmental_conditions
      { x_position := 1, y_position := 1, battery := (99.091 : ℚ),
        gyroscope := ((0 : ℚ), (0 : ℚ), (0 : ℚ)), wind_speed := 0, dust_level := 0,
        sensor_status := SensorStatus.GREEN } (some (cmdFwd 1 1)) calmOracle =
      Except.ok
        { x_position := 1, y_position := 1, battery := (99.091 : ℚ),
          gyroscope := ((2 / 45 : ℚ), (0 : ℚ), (0 : ℚ)), wind_speed := 0, dust_level := 0,
          sensor_status := SensorStatus.GREEN } := by
    rw [h3pre]
    norm_num [newWind, newDust, sensorFrom, calmOracle, Except.ok.injEq, Telemetry.mk.injEq]
  have h4 : check_drone_crash
      { x_position := 1, y_position := 1, battery := (99.091 : ℚ),
        gyroscope := ((2 / 45 : ℚ), (0 : ℚ), (0 : ℚ)), wind_speed := 0, dust_level := 0,
        sensor_status := SensorStatus.GREEN } = none := by
    norm_num [check_drone_crash]
  have hstep := update_telemetry_success initialDroneState (cmdFwd 1 1) calmOracle _ _
    rfl (validate_cmdFwd 1 1 (by norm_num) (by norm_num)) h2 h3 h4
  have hs : (update_telemetry initialDroneState (cmdFwd 1 1) calmOracle).result =
      StepResult.success
        { x_position := 1, y_position := 1, battery := 99.091, gyroscope := (2 / 45, 0, 0),
          wind_speed := 0, dust_level := 0, sensor_status := SensorStatus.GREEN } := by
    rw [hstep]
  exact ⟨hs, (claim_C1_session_iterations initialDroneState initialServerMetrics
    (cmdFwd 1 1) calmOracle _ hs).1.mpr (by decide)⟩

end DroneSim